import Mathlib

/-!
# The SlimerJS `webpage` module: a shallow embedding

The object built by `create()` in `src/modules/slimer-sdk/webpage.js` is embedded as
pure functions over an explicit page state.  The closure variables of `create`
(`browser`, `webPageSandbox`, `privateParameters`) and the handler slots of the
`webpage` object are the fields of `WebPage`.  Every call the code makes to a
collaborator (the launcher, the network tracer, `nsIDOMWindowUtils`, `Cu`) and every
call of a script-registered handler is recorded, in program order, as an `Effect`.
A function that can throw returns an `Outcome`: the state and the effects up to the
point where it returned or threw, together with the result.  A function of the script
is taken to return when it is called, except where what it does is given: the
load-finished handler of the options is also modelled with a handler and a callback
that may throw (`onLoadFinishedWith`).
-/

namespace Slimer

/-! ## JavaScript values -/

/-- A JavaScript number, kept to the integers and `NaN`. -/
inductive JSNumber
  | nan
  | int (i : Int)
  deriving DecidableEq, Repr

/-- The value of a property of an object.  A property that holds an object is kept
only as such: the code never looks inside one. -/
inductive JSField
  | undefined
  | null
  | boolean (b : Bool)
  | number (n : JSNumber)
  | string (s : String)
  | function
  | object
  deriving DecidableEq, Repr

/-- A JavaScript value handed to the page object; an object is its list of own
properties. -/
inductive JSValue
  | undefined
  | null
  | boolean (b : Bool)
  | number (n : JSNumber)
  | string (s : String)
  | function
  | object (props : List (String × JSField))
  deriving DecidableEq, Repr

/-- The `typeof` operator; `typeof null` is `"object"`. -/
def JSValue.typeof : JSValue → String
  | .undefined => "undefined"
  | .null => "object"
  | .boolean _ => "boolean"
  | .number _ => "number"
  | .string _ => "string"
  | .function => "function"
  | .object _ => "object"

/-- Truthiness of a value, as tested by `if (v)`. -/
def JSValue.truthy : JSValue → Bool
  | .undefined => false
  | .null => false
  | .boolean b => b
  | .number .nan => false
  | .number (.int i) => i != 0
  | .string s => s != ""
  | .function => true
  | .object _ => true

/-- What a call can throw. -/
inductive JSError
  /-- Models `throw new Error(message)`. -/
  | error (message : String)
  /-- Models `throw "text"`. -/
  | thrown (text : String)
  /-- Raised by the engine on a property access on `null` or `undefined`. -/
  | typeError
  /-- The requirement error of `validateOptions`, for the property `key`. -/
  | requirement (key : String) (message : String)
  deriving DecidableEq, Repr

/-! ## Collaborators -/

/-- The `<browser>` element handed over by the launcher, by identity. -/
abbrev Browser := Nat

/-- A sandbox made by `Cu.Sandbox`, by identity: the `n`-th sandbox made is `n`. -/
abbrev Sandbox := Nat

/-- A function given as `callback` to `open`, by identity. -/
abbrev Callback := Nat

/-- The first two arguments of `sendEvent`: a key (a number or a string, given by its
UTF-16 code units, which is what `length` and `charCodeAt` read) or a coordinate. -/
inductive Arg
  | undefined
  | number (n : Int)
  | string (units : List Nat)
  deriving DecidableEq, Repr

/-- Models `arg || 0`. -/
def Arg.orZero : Arg → Arg
  | .undefined => .number 0
  | .number n => .number n
  | .string [] => .number 0
  | .string (c :: cs) => .string (c :: cs)

/-- The record returned by `convertQTKeyCode` (module `slQTKeyCodeToDOMCode`). -/
structure DOMKeyCode where
  keyCode : Int
  charCode : Int
  modifier : Nat
  deriving DecidableEq, Repr

/-- The `MODIFIER_*` constants of `nsIDOMWindowUtils`. -/
structure DOMWindowUtils where
  MODIFIER_SHIFT : Nat
  MODIFIER_ALT : Nat
  MODIFIER_CONTROL : Nat
  MODIFIER_META : Nat
  deriving DecidableEq, Repr

/-- A request or response object relayed to the script; the fields are those of the
object literal built in `onContentLoaded`. -/
structure NetworkEvent where
  id : Nat
  url : String
  time : Nat
  headers : List (String × String)
  bodySize : Nat
  contentType : Option String
  contentCharset : Option String
  redirectURL : Option String
  stage : String
  status : Option Nat
  statusText : Option String
  referrer : String
  body : String
  deriving DecidableEq, Repr

/-- The closure variables of one object built by `getNetLoggerOptions(webpage, url,
callback)`: the handlers of that object read `url` and read and clear `callback`. -/
structure NetLoggerOptions where
  url : String
  callback : Option Callback
  captureTypes : List String
  deriving DecidableEq, Repr

/-- The closure passed to `slLauncher.openBrowser` by `open`. -/
structure PendingBrowser where
  url : String
  options : NetLoggerOptions
  deriving DecidableEq, Repr

/-- A decimal literal of the code, `mantissa / 10 ^ exponent`: `0.8` is `8 / 10 ^ 1`. -/
structure Decimal where
  mantissa : Nat
  exponent : Nat
  deriving DecidableEq, Repr

/-- One observable action of the page object: a call to a collaborator or a call of
a handler registered by the script. -/
inductive Effect
  | openBrowser (pending : PendingBrowser)
  | setParentWebpage (b : Browser)
  | addObserver
  | removeObserver
  | registerBrowser (b : Browser) (options : NetLoggerOptions)
  | unregisterBrowser (b : Browser)
  | loadURI (b : Browser) (url : String)
  | setBrowserWebpageNull (b : Browser)
  | closeBrowser (b : Browser)
  | focus (b : Browser)
  | sendKeyEvent (type : String) (keyCode : Int) (charCode : Int) (modifier : Nat)
  | sendMouseEvent (type : String) (x y : Arg) (button : Nat) (clickCount : Nat)
      (modifier : Nat)
  | sendMouseEventToWindow (type : String) (x y : Arg) (button : Nat) (clickCount : Nat)
      (modifier : Nat)
  | evalInSandbox (src : String) (sandbox : Sandbox)
  | setCSSViewport (b : Browser) (w h : JSField)
  | gotoIndex (b : Browser) (index : Int)
  | getScreenshotCanvas (b : Browser) (clipRect : JSValue) (ratio : JSField)
  | toDataURL (format : String) (qual : Option Decimal)
  | onClosing
  | onInitialized
  | onLoadStarted
  | onLoadFinished (status : JSValue)
  | onUrlChanged (url : String)
  | onResourceRequested (resource : NetworkEvent)
  | onResourceReceived (request : NetworkEvent)
  | callback (cb : Callback) (success : JSValue)
  deriving DecidableEq, Repr

/-- The primitive input events among the effects: what was injected with
`sendKeyEvent`, `sendMouseEvent` or `sendMouseEventToWindow`. -/
def Effect.isInjected : Effect → Bool
  | .sendKeyEvent .. => true
  | .sendMouseEvent .. => true
  | .sendMouseEventToWindow .. => true
  | _ => false

/-- The injected primitive events of a list of effects, in order. -/
def injected (effects : List Effect) : List Effect :=
  effects.filter Effect.isInjected

/-! ## The page state -/

/-- The object `privateParameters`. -/
structure PrivateParameters where
  clipRect : JSValue
  deriving DecidableEq, Repr

/-- The state held by one `create()` closure and its `webpage` object.  A handler slot
is `true` when the script has put a function there.  `browsers` is the global
variable that `close` assigns (`none`: never assigned).  `sandboxes` counts the
sandboxes made so far, which gives each new sandbox its identity. -/
structure WebPage where
  browser : Option Browser
  browsers : Option JSValue
  webPageSandbox : Option Sandbox
  sandboxes : Nat
  privateParameters : PrivateParameters
  captureContent : List String
  onClosing : Bool
  onInitialized : Bool
  onLoadFinished : Bool
  onLoadStarted : Bool
  onResourceRequested : Bool
  onResourceReceived : Bool
  onUrlChanged : Bool
  deriving DecidableEq, Repr

/-- The state right after `create()`: no browser, no sandbox, `clipRect : null`, every
handler slot `null`. -/
def create : WebPage where
  browser := none
  browsers := none
  webPageSandbox := none
  sandboxes := 0
  privateParameters := { clipRect := .null }
  captureContent := []
  onClosing := false
  onInitialized := false
  onLoadFinished := false
  onLoadStarted := false
  onResourceRequested := false
  onResourceReceived := false
  onUrlChanged := false

/-- The state, the effects so far and the result of a call that may throw. -/
structure Outcome (α : Type) where
  page : WebPage
  effects : List Effect
  result : Except JSError α

/-! ## `sendEvent` -/

namespace event.modifiers

def shift : Nat := 0x02000000
def ctrl : Nat := 0x04000000
def alt : Nat := 0x08000000
def meta : Nat := 0x10000000
def keypad : Nat := 0x20000000

end event.modifiers

/-- Models `modifier & mask` tested for truth: both operands are taken to 32 bits. -/
def bitTest (modifier mask : Nat) : Bool :=
  (modifier % 2 ^ 32) &&& (mask % 2 ^ 32) != 0

/-- Lines 577-587 of `sendEvent`: the script's modifier bits are turned into the
flags of `nsIDOMWindowUtils`; a falsy modifier gives 0. -/
def translateModifier (utils : DOMWindowUtils) (modifier : Nat) : Nat :=
  if modifier != 0 then
    let m := 0
    let m := if bitTest modifier event.modifiers.shift then m ||| utils.MODIFIER_SHIFT else m
    let m := if bitTest modifier event.modifiers.alt then m ||| utils.MODIFIER_ALT else m
    let m := if bitTest modifier event.modifiers.ctrl then m ||| utils.MODIFIER_CONTROL else m
    let m := if bitTest modifier event.modifiers.meta then m ||| utils.MODIFIER_META else m
    m
  else 0

/-- The body of the `for` loop of the `keypress` branch, for one code unit. -/
def keypressChar (convertQTKeyCode : Int → DOMKeyCode) (modifier : Nat) (charCode : Nat) :
    List Effect :=
  let DOMKeyCode := convertQTKeyCode charCode
  [ .sendKeyEvent "keydown" DOMKeyCode.keyCode DOMKeyCode.charCode modifier,
    .sendKeyEvent "keypress" DOMKeyCode.keyCode charCode modifier,
    .sendKeyEvent "keyup" DOMKeyCode.keyCode DOMKeyCode.charCode modifier ]

/-- The `for` loop of the `keypress` branch over the code units of the key. -/
def keypressLoop (convertQTKeyCode : Int → DOMKeyCode) (modifier : Nat) :
    List Nat → List Effect
  | [] => []
  | c :: cs => keypressChar convertQTKeyCode modifier c ++ keypressLoop convertQTKeyCode modifier cs

/-- Models `toLowerCase()` on the letters `A` to `Z` only.  The method of the code also
lowers letters outside ASCII (the Kelvin sign becomes `k`), so an event type or a format
spelled with such a letter is outside this model; the theorems give the event type in
lower-case ASCII, and no string with a letter outside ASCII lower-cases to `png` or
`jpeg`. -/
def toLowerCase (s : String) : String :=
  ⟨s.data.map Char.toLower⟩

/-- Lines 627-631 of `sendEvent`: the number of the button, 0 unless the button is
`'middle'` or `'right'`. -/
def buttonNumber (button : Option String) : Nat :=
  if button = some "middle" then 1 else if button = some "right" then 2 else 0

/-- The method `sendEvent(eventType, arg1, arg2, button, modifier)`.  The modifier is a bit
set (an absent modifier is falsy like 0); the button is a string or absent. -/
def sendEvent (utils : DOMWindowUtils) (convertQTKeyCode : Int → DOMKeyCode) (s : WebPage)
    (eventType : String) (arg1 arg2 : Arg) (button : Option String) (modifier : Nat) :
    Outcome Unit :=
  match s.browser with
  | none => ⟨s, [], .error (.error "WebPage not opened")⟩
  | some b =>
    let eventType := toLowerCase eventType
    let modifier := translateModifier utils modifier
    if eventType = "keydown" ∨ eventType = "keyup" then
      match arg1 with
      | .undefined => ⟨s, [.focus b], .error .typeError⟩
      | .string [] => ⟨s, [.focus b], .ok ()⟩
      | .string (c :: _) =>
        let DOMKeyCode := convertQTKeyCode c
        let modifier :=
          if DOMKeyCode.modifier != 0 ∧ modifier = 0 then DOMKeyCode.modifier else modifier
        ⟨s, [.focus b, .sendKeyEvent eventType DOMKeyCode.keyCode DOMKeyCode.charCode modifier],
          .ok ()⟩
      | .number keyCode =>
        let DOMKeyCode := convertQTKeyCode keyCode
        let modifier :=
          if DOMKeyCode.modifier != 0 ∧ modifier = 0 then DOMKeyCode.modifier else modifier
        ⟨s, [.focus b, .sendKeyEvent eventType DOMKeyCode.keyCode DOMKeyCode.charCode modifier],
          .ok ()⟩
    else if eventType = "keypress" then
      match arg1 with
      | .undefined => ⟨s, [.focus b], .error .typeError⟩
      | .number key =>
        let DOMKeyCode := convertQTKeyCode key
        ⟨s, [.focus b, .sendKeyEvent "keypress" DOMKeyCode.keyCode DOMKeyCode.charCode modifier],
          .ok ()⟩
      | .string [charCode] =>
        let DOMKeyCode := convertQTKeyCode charCode
        ⟨s, [.focus b, .sendKeyEvent "keypress" DOMKeyCode.keyCode charCode modifier], .ok ()⟩
      | .string key => ⟨s, .focus b :: keypressLoop convertQTKeyCode modifier key, .ok ()⟩
    else
      let btn := buttonNumber button
      let x := arg1.orZero
      let y := arg2.orZero
      if eventType = "mousedown" ∨ eventType = "mouseup" ∨ eventType = "mousemove" then
        ⟨s, [.focus b, .sendMouseEvent eventType x y btn 1 modifier], .ok ()⟩
      else if eventType = "mousedoubleclick" then
        ⟨s, [.focus b, .sendMouseEvent "mousedown" x y btn 2 modifier], .ok ()⟩
      else if eventType = "doubleclick" then
        ⟨s, [.focus b,
             .sendMouseEvent "mousedown" x y btn 1 modifier,
             .sendMouseEvent "mouseup" x y btn 1 modifier,
             .sendMouseEvent "mousedown" x y btn 2 modifier,
             .sendMouseEvent "mouseup" x y btn 2 modifier], .ok ()⟩
      else if eventType = "click" then
        ⟨s, [.focus b,
             .sendMouseEventToWindow "mousedown" x y btn 1 modifier,
             .sendMouseEventToWindow "mouseup" x y btn 1 modifier], .ok ()⟩
      else ⟨s, [.focus b], .error (.thrown "Unknown event type")⟩

/-! ## The sandbox -/

/-- The function `createSandBox`: it reads `browser.contentWindow`, which throws when
there is no browser; otherwise `Cu.Sandbox` makes a new sandbox. -/
def createSandBox (s : WebPage) : Except JSError (Sandbox × WebPage) :=
  match s.browser with
  | none => .error .typeError
  | some _ => .ok (s.sandboxes, { s with sandboxes := s.sandboxes + 1 })

/-- The function `evalInSandbox(src)`: the held sandbox is used when there is one,
otherwise one is made and kept.  The evaluated script is taken to return. -/
def evalInSandbox (s : WebPage) (src : String) : Outcome Unit :=
  match s.webPageSandbox with
  | some sandbox => ⟨s, [.evalInSandbox src sandbox], .ok ()⟩
  | none =>
    match createSandBox s with
    | .error e => ⟨s, [], .error e⟩
    | .ok (sandbox, s1) =>
      ⟨{ s1 with webPageSandbox := some sandbox }, [.evalInSandbox src sandbox], .ok ()⟩

/-- The method `evaluate(func, ...args)`; `func` is the text given by `func.toSource()`
and `args` the text given by `JSON.stringify` of the remaining arguments. -/
def evaluate (s : WebPage) (func args : String) : Outcome Unit :=
  match s.browser with
  | none => ⟨s, [], .error (.thrown "WebPage not opened")⟩
  | some _ => evalInSandbox s ("(" ++ func ++ ").apply(this, " ++ args ++ ");")

/-- The method `evaluateJavascript(src)`. -/
def evaluateJavascript (s : WebPage) (src : String) : Outcome Unit :=
  evalInSandbox s src

/-! ## The private methods that relay events to the script -/

def initialized (s : WebPage) : WebPage × List Effect :=
  ({ s with webPageSandbox := none }, if s.onInitialized then [.onInitialized] else [])

/-- The method `loadFinished(status)` for a handler that returns; `loadFinishedWith`
is the method for a handler that may throw. -/
def loadFinished (s : WebPage) (status : JSValue) : WebPage × List Effect :=
  ({ s with webPageSandbox := none }, if s.onLoadFinished then [.onLoadFinished status] else [])

/-- The method `loadFinished(status)`, given what the `onLoadFinished` handler does when
it is called: it returns or it throws, and a throw leaves the method at once. -/
def loadFinishedWith (handler : Except JSError Unit) (s : WebPage) (status : JSValue) :
    Outcome Unit :=
  ⟨(loadFinished s status).1, (loadFinished s status).2,
    if s.onLoadFinished then handler else .ok ()⟩

def loadStarted (s : WebPage) : WebPage × List Effect :=
  ({ s with webPageSandbox := none }, if s.onLoadStarted then [.onLoadStarted] else [])

def resourceReceived (s : WebPage) (request : NetworkEvent) : WebPage × List Effect :=
  (s, if s.onResourceReceived then [.onResourceReceived request] else [])

def resourceRequested (s : WebPage) (resource : NetworkEvent) : WebPage × List Effect :=
  (s, if s.onResourceRequested then [.onResourceRequested resource] else [])

def urlChanged (s : WebPage) (url : String) : WebPage × List Effect :=
  ({ s with webPageSandbox := none }, if s.onUrlChanged then [.onUrlChanged url] else [])

/-! ## The options given to the network tracer -/

/-- The function `getNetLoggerOptions(webpage, url, callback)`. -/
def getNetLoggerOptions (webpage : WebPage) (url : String) (callback : Option Callback) :
    NetLoggerOptions :=
  { url := url, callback := callback, captureTypes := webpage.captureContent }

/-- The object literal passed to `resourceReceived` by `onContentLoaded` on a failure;
`time` is the reading of `new Date()`. -/
def failedResource (url : String) (time : Nat) : NetworkEvent where
  id := 0
  url := url
  time := time
  headers := []
  bodySize := 0
  contentType := none
  contentCharset := none
  redirectURL := none
  stage := "end"
  status := none
  statusText := none
  referrer := ""
  body := ""

namespace NetLoggerOptions

def onRequest (_o : NetLoggerOptions) (webpage : WebPage) (request : NetworkEvent) :
    WebPage × List Effect :=
  resourceRequested webpage request

def onResponse (_o : NetLoggerOptions) (webpage : WebPage) (res : NetworkEvent) :
    WebPage × List Effect :=
  resourceReceived webpage res

def onLoadStarted (_o : NetLoggerOptions) (webpage : WebPage) : WebPage × List Effect :=
  loadStarted webpage

def onURLChanged (_o : NetLoggerOptions) (webpage : WebPage) (url : String) :
    WebPage × List Effect :=
  urlChanged webpage url

/-- The handler `onContentLoaded(success)`; `time` is the clock read by `new Date()`. -/
def onContentLoaded (o : NetLoggerOptions) (webpage : WebPage) (time : Nat)
    (success : JSValue) : WebPage × List Effect :=
  if success.truthy then initialized webpage
  else resourceReceived webpage (failedResource o.url time)

/-- The handler `onLoadFinished(success)` for an `onLoadFinished` handler and a callback
that return: it clears the closure variable `callback` after the call, so the options
change too.  `onLoadFinishedWith` is the handler for functions that may throw. -/
def onLoadFinished (o : NetLoggerOptions) (webpage : WebPage) (success : JSValue) :
    NetLoggerOptions × WebPage × List Effect :=
  let r := loadFinished webpage success
  match o.callback with
  | some cb => ({ o with callback := none }, r.1, r.2 ++ [.callback cb success])
  | none => (o, r.1, r.2)

end NetLoggerOptions

/-- What the functions of the script do when they are called during one load-finished
notification: the `onLoadFinished` handler and the `open` callback each return or
throw. -/
structure Answers where
  handler : Except JSError Unit
  callback : Except JSError Unit

/-- Both functions return. -/
def Answers.returning : Answers where
  handler := .ok ()
  callback := .ok ()

/-- The handler `onLoadFinished(success)` of the options (lines 140-146), given the
answers of the script: a throw of `webpage.loadFinished(success)` leaves the handler
before the callback is reached; the callback is called when it is set; the statement
`callback = null` is reached only when the callback has returned. -/
def NetLoggerOptions.onLoadFinishedWith (a : Answers) (o : NetLoggerOptions)
    (webpage : WebPage) (success : JSValue) : NetLoggerOptions × Outcome Unit :=
  let r := loadFinishedWith a.handler webpage success
  match r.result with
  | .error e => (o, ⟨r.page, r.effects, .error e⟩)
  | .ok _ =>
    match o.callback with
    | some cb =>
      match a.callback with
      | .ok _ =>
        ({ o with callback := none }, ⟨r.page, r.effects ++ [.callback cb success], .ok ()⟩)
      | .error e => (o, ⟨r.page, r.effects ++ [.callback cb success], .error e⟩)
    | none => (o, ⟨r.page, r.effects, .ok ()⟩)

/-! ## `open` and `close` -/

/-- The method `open(url, callback)`.  With a browser the options are registered and
the URL loaded; without one the launcher is asked for a browser and the rest runs in
`openBrowserCallback`. -/
def open_ (s : WebPage) (url : String) (callback : Option Callback) : WebPage × List Effect :=
  let options := getNetLoggerOptions s url callback
  match s.browser with
  | some browser => (s, [.registerBrowser browser options, .loadURI browser url])
  | none => (s, [.openBrowser { url := url, options := options }])

/-- The function that `open` passes to `slLauncher.openBrowser`, run by the launcher
with the new browser `nav`. -/
def openBrowserCallback (p : PendingBrowser) (s : WebPage) (nav : Browser) :
    WebPage × List Effect :=
  let s1 := { s with browser := some nav }
  let r := initialized s1
  (r.1, [.setParentWebpage nav, .addObserver, .registerBrowser nav p.options] ++ r.2
          ++ [.loadURI nav p.url])

/-- The method `close()`.  Its last statement assigns the global `browsers`; the
variable `browser` is not assigned. -/
def close (s : WebPage) : WebPage × List Effect :=
  let effects : List Effect :=
    match s.browser with
    | some browser =>
      [.removeObserver, .unregisterBrowser browser]
        ++ (if s.onClosing then [.onClosing] else [])
        ++ [.setBrowserWebpageNull browser, .closeBrowser browser]
    | none => []
  ({ s with webPageSandbox := none, browsers := some .null }, effects)

/-! ## Runs -/

/-- A notification of the tracer to one options object. -/
inductive Notification
  | request (request : NetworkEvent)
  | response (res : NetworkEvent)
  | loadStarted
  | urlChanged (url : String)
  | contentLoaded (time : Nat) (success : JSValue)
  | loadFinished (success : JSValue)
  deriving DecidableEq, Repr

/-- One notification delivered to the handlers of `o`. -/
def NetLoggerOptions.deliver (o : NetLoggerOptions) (webpage : WebPage) :
    Notification → NetLoggerOptions × WebPage × List Effect
  | .request r => (o, o.onRequest webpage r)
  | .response r => (o, o.onResponse webpage r)
  | .loadStarted => (o, o.onLoadStarted webpage)
  | .urlChanged url => (o, o.onURLChanged webpage url)
  | .contentLoaded time success => (o, o.onContentLoaded webpage time success)
  | .loadFinished success => o.onLoadFinished webpage success

/-- A sequence of notifications delivered, one after the other, to the handlers of
`o`. -/
def NetLoggerOptions.deliverAll (o : NetLoggerOptions) (webpage : WebPage) :
    List Notification → NetLoggerOptions × WebPage × List Effect
  | [] => (o, webpage, [])
  | n :: ns =>
    let r := o.deliver webpage n
    let rest := NetLoggerOptions.deliverAll r.1 r.2.1 ns
    (rest.1, rest.2.1, r.2.2 ++ rest.2.2)

/-- One notification delivered to the handlers of `o`, with the answers of the script
to a load-finished one; what a handler throws goes back to the tracer. -/
def NetLoggerOptions.deliverWith (o : NetLoggerOptions) (webpage : WebPage)
    (n : Notification) (a : Answers) : NetLoggerOptions × WebPage × List Effect :=
  match n with
  | .loadFinished success =>
    ((o.onLoadFinishedWith a webpage success).1, (o.onLoadFinishedWith a webpage success).2.page,
      (o.onLoadFinishedWith a webpage success).2.effects)
  | n => o.deliver webpage n

/-- A sequence of notifications, each with the answers of the script, delivered one
after the other to the handlers of `o`. -/
def NetLoggerOptions.deliverAllWith (o : NetLoggerOptions) (webpage : WebPage) :
    List (Notification × Answers) → NetLoggerOptions × WebPage × List Effect
  | [] => (o, webpage, [])
  | na :: nas =>
    let r := o.deliverWith webpage na.1 na.2
    let rest := NetLoggerOptions.deliverAllWith r.1 r.2.1 nas
    (rest.1, rest.2.1, r.2.2 ++ rest.2.2)

/-- The options objects handed out by a list of effects: those registered with the
tracer and those held by a pending launcher request. -/
def registeredBy : List Effect → List NetLoggerOptions
  | [] => []
  | .registerBrowser _ o :: es => o :: registeredBy es
  | .openBrowser p :: es => p.options :: registeredBy es
  | _ :: es => registeredBy es

/-- One step in the life of a page: a call by the script, the launcher handing over
a browser, or the tracer notifying an options object. -/
inductive Step
  | open_ (url : String) (callback : Option Callback)
  | browserOpened (p : PendingBrowser) (nav : Browser)
  | notify (o : NetLoggerOptions) (n : Notification)
  | evaluateJavascript (src : String)
  | close
  deriving DecidableEq, Repr

def step (s : WebPage) : Step → WebPage × List Effect
  | .open_ url callback => open_ s url callback
  | .browserOpened p nav => openBrowserCallback p s nav
  | .notify o n => (o.deliver s n).2
  | .evaluateJavascript src =>
    ((Slimer.evaluateJavascript s src).page, (Slimer.evaluateJavascript s src).effects)
  | .close => close s

def run (s : WebPage) : List Step → WebPage × List Effect
  | [] => (s, [])
  | st :: sts =>
    let r := step s st
    let rest := run r.1 sts
    (rest.1, r.2 ++ rest.2)

/-- The steps at which the code calls `initialized`: the launcher handing over the
browser, and a content-loaded notification with a truthy `success`. -/
def Step.initializes : Step → Bool
  | .browserOpened _ _ => true
  | .notify _ (.contentLoaded _ success) => success.truthy
  | _ => false

/-- One of the four events that discard the sandbox. -/
inductive PageEvent
  | initialized
  | loadStarted
  | loadFinished (status : JSValue)
  | urlChanged (url : String)
  deriving DecidableEq, Repr

def PageEvent.apply (s : WebPage) : PageEvent → WebPage × List Effect
  | .initialized => Slimer.initialized s
  | .loadStarted => Slimer.loadStarted s
  | .loadFinished status => Slimer.loadFinished s status
  | .urlChanged url => Slimer.urlChanged s url

/-- An evaluation request or one of the four events. -/
inductive Request
  | evaluate (func args : String)
  | evaluateJavascript (src : String)
  | event (e : PageEvent)
  deriving DecidableEq, Repr

def Request.isEvaluation : Request → Bool
  | .event _ => false
  | _ => true

def Request.apply (s : WebPage) : Request → WebPage × List Effect
  | .evaluate func args =>
    ((Slimer.evaluate s func args).page, (Slimer.evaluate s func args).effects)
  | .evaluateJavascript src =>
    ((Slimer.evaluateJavascript s src).page, (Slimer.evaluateJavascript s src).effects)
  | .event e => e.apply s

def runRequests (s : WebPage) : List Request → WebPage × List Effect
  | [] => (s, [])
  | r :: rs =>
    let o := r.apply s
    let rest := runRequests o.1 rs
    (rest.1, o.2 ++ rest.2)

/-- The sandboxes in which the evaluations of a list of effects ran, in order. -/
def contexts : List Effect → List Sandbox
  | [] => []
  | .evalInSandbox _ sandbox :: es => sandbox :: contexts es
  | _ :: es => contexts es

/-- The calls of an `open` callback in a list of effects, in order. -/
def callbacks : List Effect → List Effect
  | [] => []
  | .callback cb success :: es => .callback cb success :: callbacks es
  | _ :: es => callbacks es

/-- The number of calls of the `onInitialized` handler in a list of effects. -/
def countInitialized : List Effect → Nat
  | [] => 0
  | .onInitialized :: es => countInitialized es + 1
  | _ :: es => countInitialized es

/-- The held sandbox, if any, is one of those made so far. -/
def WebPage.sandboxKnown (s : WebPage) : Prop :=
  ∀ k, s.webPageSandbox = some k → k < s.sandboxes

/-! ## `clipRect` -/

/-- One entry of a requirements object: the accepted types, the test and the message. -/
structure Requirement where
  is : List String
  ok : JSField → Bool
  msg : String

/-- The type name of a property value, as `validateOptions` names it. -/
def JSField.getTypeOf : JSField → String
  | .undefined => "undefined"
  | .null => "null"
  | .boolean _ => "boolean"
  | .number _ => "number"
  | .string _ => "string"
  | .function => "function"
  | .object => "object"

/-- The properties that can be read off a value: those of an object; `null` and the
values that are not objects have none. -/
def JSValue.props : JSValue → List (String × JSField)
  | .object props => props
  | _ => []

/-- The value of `options[key]`, `undefined` when the key is absent. -/
def JSValue.prop (value : JSValue) (key : String) : JSField :=
  (value.props.lookup key).getD .undefined

/-- Modelled from the spec: `validateOptions` of `sdk/deprecated/api-utils` is not
among the sources.  The clip rectangle is "validated on assignment", and fields
"failing positivity/type checks" give a validation error: the requirements are
checked in their order, a property whose type is not listed in `is` or which fails
`ok` raises the requirement error with the message of that requirement, and the
result is the object of the checked properties.  A property that is absent, as all
are on `null`, is read as `undefined` and so fails a check for a number. -/
def validateOptions (options : JSValue) :
    List (String × Requirement) → Except JSError (List (String × JSField))
  | [] => .ok []
  | (key, req) :: requirements =>
    let optsVal := options.prop key
    if optsVal.getTypeOf ∈ req.is then
      if req.ok optsVal then
        match validateOptions options requirements with
        | .ok validated => .ok ((key, optsVal) :: validated)
        | .error e => .error e
      else .error (.requirement key req.msg)
    else .error (.requirement key req.msg)

/-- Models `function(val) val >= 0`; it is only called on a value of type `number`. -/
def okNonNegative : JSField → Bool
  | .number (.int i) => decide (0 ≤ i)
  | _ => false

/-- Models `function(val) val > 0`; it is only called on a value of type `number`. -/
def okPositive : JSField → Bool
  | .number (.int i) => decide (0 < i)
  | _ => false

/-- The object `requirements` of the `clipRect` setter. -/
def requirements : List (String × Requirement) :=
  [ ("top", { is := ["number"], ok := okNonNegative, msg := "top should be a positive integer" }),
    ("left", { is := ["number"], ok := okNonNegative, msg := "left should be a positive integer" }),
    ("width", { is := ["number"], ok := okPositive, msg := "width should be a positive integer" }),
    ("height", { is := ["number"], ok := okPositive,
                 msg := "height should be a positive integer" }) ]

/-- The getter of `clipRect`. -/
def clipRect (s : WebPage) : JSValue :=
  s.privateParameters.clipRect

/-- The setter of `clipRect`: the assignment to `privateParameters.clipRect` comes
after `validateOptions` has returned, so a throw leaves the state as it was. -/
def setClipRect (s : WebPage) (value : JSValue) : Outcome Unit :=
  if value.typeof = "object" then
    match validateOptions value requirements with
    | .ok validated =>
      ⟨{ s with privateParameters := { s.privateParameters with clipRect := .object validated } },
        [], .ok ()⟩
    | .error e => ⟨s, [], .error e⟩
  else
    ⟨{ s with privateParameters := { s.privateParameters with clipRect := .null } }, [], .ok ()⟩

/-- The state after a sequence of assignments to `clipRect`, whether they throw or
not. -/
def assignClipRects (s : WebPage) : List JSValue → WebPage
  | [] => s
  | value :: values => assignClipRects (setClipRect s value).page values

/-- The requirements on a clip rectangle in the words of the specification: `top` and
`left` are numbers that are at least 0, `width` and `height` numbers above 0. -/
def meetsRequirements (value : JSValue) : Prop :=
  (∃ t : Int, value.prop "top" = .number (.int t) ∧ 0 ≤ t) ∧
  (∃ l : Int, value.prop "left" = .number (.int l) ∧ 0 ≤ l) ∧
  (∃ w : Int, value.prop "width" = .number (.int w) ∧ 0 < w) ∧
  (∃ h : Int, value.prop "height" = .number (.int h) ∧ 0 < h)

/-- A stored clip rectangle is `null` (none) or an object of exactly the four fields
with `top >= 0`, `left >= 0`, `width > 0` and `height > 0`. -/
def validClipRect (value : JSValue) : Prop :=
  value = .null ∨
  ∃ t l w h : Int, 0 ≤ t ∧ 0 ≤ l ∧ 0 < w ∧ 0 < h ∧
    value = .object [("top", .number (.int t)), ("left", .number (.int l)),
                     ("width", .number (.int w)), ("height", .number (.int h))]

/-! ## `viewportSize` -/

/-- Truthiness of a property value. -/
def JSField.truthy : JSField → Bool
  | .undefined => false
  | .null => false
  | .boolean b => b
  | .number .nan => false
  | .number (.int i) => i != 0
  | .string s => s != ""
  | .function => true
  | .object => true

/-- Models `field || 0`. -/
def JSField.orZero (f : JSField) : JSField :=
  if f.truthy then f else .number (.int 0)

/-- The number that a comparison reads off a value; `coerce` is the conversion that
the engine makes of a string, a function or an object. -/
def JSField.toNumber (coerce : JSField → JSNumber) : JSField → JSNumber
  | .undefined => .nan
  | .null => .int 0
  | .boolean b => .int (if b then 1 else 0)
  | .number n => n
  | f => coerce f

/-- Models `n <= 0`; a comparison with `NaN` is false. -/
def JSNumber.leZero : JSNumber → Bool
  | .nan => false
  | .int i => decide (i ≤ 0)

/-- The setter of `viewportSize`.  Without a browser it returns at once; a value that
is not of type `object` is thrown out with an `Error`; reading `width` off `null`
throws. -/
def setViewportSize (coerce : JSField → JSNumber) (s : WebPage) (val : JSValue) :
    Outcome Unit :=
  match s.browser with
  | none => ⟨s, [], .ok ()⟩
  | some b =>
    if val.typeof != "object" then ⟨s, [], .error (.error "Bad argument type")⟩
    else
      match val with
      | .null => ⟨s, [], .error .typeError⟩
      | val =>
        let w := (val.prop "width").orZero
        let h := (val.prop "height").orZero
        if (w.toNumber coerce).leZero || (h.toNumber coerce).leZero then ⟨s, [], .ok ()⟩
        else ⟨s, [.setCSSViewport b w h], .ok ()⟩

/-! ## History -/

/-- The object `browser.sessionHistory`, as the engine gives it at the call. -/
structure SessionHistory where
  index : Int
  count : Int
  deriving DecidableEq, Repr

/-- The method `go(indexIncrement)`; reading `sessionHistory` off a `null` browser
throws. -/
def go (s : WebPage) (h : SessionHistory) (indexIncrement : Int) : Outcome Unit :=
  match s.browser with
  | none => ⟨s, [], .error .typeError⟩
  | some b =>
    let index := h.index + indexIncrement
    if index ≥ h.count ∨ index < 0 then ⟨s, [], .ok ()⟩
    else ⟨s, [.gotoIndex b index], .ok ()⟩

/-! ## `renderBase64` -/

/-- Line 758 of `renderBase64`: `(format || "png").toString().toLowerCase()`, for a
format that is absent or a string; the empty string is falsy. -/
def lowerFormat (format : Option String) : String :=
  match format with
  | none => toLowerCase "png"
  | some t => if t != "" then toLowerCase t else toLowerCase "png"

/-- The method `renderBase64(format, ratio)`.  `toDataURL` is what the canvas of the
screenshot answers; the result is the piece after the first comma, if there is one. -/
def renderBase64 (toDataURL : String → Option Decimal → String) (s : WebPage)
    (format : Option String) (ratio : JSField) : Outcome (Option String) :=
  match s.browser with
  | none => ⟨s, [], .error (.thrown "WebPage not opened")⟩
  | some b =>
    let format := lowerFormat format
    if format = "png" then
      ⟨s, [.getScreenshotCanvas b s.privateParameters.clipRect ratio,
           .toDataURL "image/png" none],
        .ok ((toDataURL "image/png" none).splitOn ",")[1]?⟩
    else if format = "jpeg" then
      ⟨s, [.getScreenshotCanvas b s.privateParameters.clipRect ratio,
           .toDataURL "image/jpeg" (some ⟨8, 1⟩)],
        .ok ((toDataURL "image/jpeg" (some ⟨8, 1⟩)).splitOn ",")[1]?⟩
    else ⟨s, [], .error (.error ("Render format \"" ++ format ++ "\" is not supported"))⟩

/-! ## Input events: statements -/

/-- The expansion of one character of a `keypress` string in the words of the
specification: a keydown, then a keypress, then a keyup for the code unit `c`, with
the key code that the table gives for `c`. -/
def downPressUp (convertQTKeyCode : Int → DOMKeyCode) (modifier : Nat) (c : Nat) :
    List Effect :=
  [ .sendKeyEvent "keydown" (convertQTKeyCode c).keyCode (convertQTKeyCode c).charCode modifier,
    .sendKeyEvent "keypress" (convertQTKeyCode c).keyCode c modifier,
    .sendKeyEvent "keyup" (convertQTKeyCode c).keyCode (convertQTKeyCode c).charCode modifier ]

/-- A width or height that keeps the setter of `viewportSize` from resizing, said
case by case: a missing one, `null`, `false`, `NaN`, the empty string (each is read as 0),
a number that is 0 or negative, and a non-empty string, a function or an object that
the engine converts to a number that is 0 or negative.  `true`, a number above 0, and a
string, function or object converted to a number above 0 or to `NaN` do not. -/
def blocksResize (coerce : JSField → JSNumber) : JSField → Prop
  | .undefined => True
  | .null => True
  | .boolean b => b = false
  | .number .nan => True
  | .number (.int i) => i ≤ 0
  | .string t => t = "" ∨ ∃ i : Int, coerce (.string t) = .int i ∧ i ≤ 0
  | .function => ∃ i : Int, coerce .function = .int i ∧ i ≤ 0
  | .object => ∃ i : Int, coerce .object = .int i ∧ i ≤ 0

/-- The modifier argument made of the given bits of `event.modifiers`. -/
def modifierSet (shift ctrl alt meta keypad : Bool) : Nat :=
  (if shift then event.modifiers.shift else 0) ||| (if ctrl then event.modifiers.ctrl else 0)
    ||| (if alt then event.modifiers.alt else 0) ||| (if meta then event.modifiers.meta else 0)
    ||| (if keypad then event.modifiers.keypad else 0)

/-- The platform flags of the given shift, ctrl, alt and meta bits. -/
def platformFlags (utils : DOMWindowUtils) (shift ctrl alt meta : Bool) : Nat :=
  (if shift then utils.MODIFIER_SHIFT else 0) ||| (if alt then utils.MODIFIER_ALT else 0)
    ||| (if ctrl then utils.MODIFIER_CONTROL else 0) ||| (if meta then utils.MODIFIER_META else 0)

/-! ## Sample inputs -/

/-- A conversion that makes `NaN` of every string, function and object. -/
def sampleCoerce (_f : JSField) : JSNumber :=
  .nan

/-- A canvas that answers every request with the same data URL. -/
def sampleDataURL (_format : String) (_qual : Option Decimal) : String :=
  "data:;base64,AAAA"

/-- A key-code table in which code 65 (`A`) has the shift flag as inherent modifier. -/
def shiftedTable (code : Int) : DOMKeyCode where
  keyCode := code
  charCode := code
  modifier := if code = 65 then 4 else 0


/-- The modifier constants as `nsIDOMWindowUtils` defines them. -/
def sampleUtils : DOMWindowUtils where
  MODIFIER_SHIFT := 4
  MODIFIER_ALT := 1
  MODIFIER_CONTROL := 2
  MODIFIER_META := 8

/-- A key-code table that gives each code as its own key code and char code. -/
def sampleTable (code : Int) : DOMKeyCode where
  keyCode := code
  charCode := code
  modifier := 0

/-- A page with an open session on browser 7. -/
def openedPage : WebPage :=
  { create with browser := some 7 }

/-- The options object that `open("http://a/")` builds on a new page. -/
def sampleOptions : NetLoggerOptions :=
  getNetLoggerOptions create "http://a/" none

/-- The launcher request that `open("http://a/")` makes on a new page. -/
def samplePending : PendingBrowser where
  url := "http://a/"
  options := sampleOptions

/-- The value `{top: -1, left: 0, width: 10, height: 10}`. -/
def negativeTopRect : JSValue :=
  .object [("top", .number (.int (-1))), ("left", .number (.int 0)),
           ("width", .number (.int 10)), ("height", .number (.int 10))]

/-- The value `{top: 0, left: 5, width: 10, height: 20}`. -/
def goodRect : JSValue :=
  .object [("top", .number (.int 0)), ("left", .number (.int 5)),
           ("width", .number (.int 10)), ("height", .number (.int 20))]

/-! ## Lemmas on the input translator -/

theorem keypressLoop_eq_flatMap (convertQTKeyCode : Int → DOMKeyCode) (modifier : Nat)
    (units : List Nat) :
    keypressLoop convertQTKeyCode modifier units
      = units.flatMap (downPressUp convertQTKeyCode modifier) := by
  induction units with
  | nil => rfl
  | cons c cs ih =>
    simp only [keypressLoop, ih, List.flatMap_cons]
    rfl

theorem injected_keypressLoop (convertQTKeyCode : Int → DOMKeyCode) (modifier : Nat)
    (units : List Nat) :
    injected (keypressLoop convertQTKeyCode modifier units)
      = keypressLoop convertQTKeyCode modifier units := by
  induction units with
  | nil => rfl
  | cons c cs ih =>
    simp only [injected] at ih
    simp [keypressLoop, keypressChar, injected, Effect.isInjected, ih]

theorem length_keypressLoop (convertQTKeyCode : Int → DOMKeyCode) (modifier : Nat)
    (units : List Nat) :
    (keypressLoop convertQTKeyCode modifier units).length = 3 * units.length := by
  induction units with
  | nil => rfl
  | cons c cs ih =>
    simp only [keypressLoop, keypressChar, List.length_append, List.length_cons,
      List.length_nil, ih]
    omega

/-! ## Input events: theorems -/

/-- C1: with a session open, `sendEvent("keypress", s, ...)` for a string `s` of at
least two code units succeeds, leaves the page state as it was, and injects exactly
`3 * |s|` primitive key events: for each code unit of `s` in order a keydown, a
keypress and a keyup for that unit. -/
theorem sendEvent_keypress_string (utils : DOMWindowUtils)
    (convertQTKeyCode : Int → DOMKeyCode) (s : WebPage) (b : Browser) (units : List Nat)
    (arg2 : Arg) (button : Option String) (modifier : Nat)
    (hb : s.browser = some b) (hlen : 2 ≤ units.length) :
    (sendEvent utils convertQTKeyCode s "keypress" (.string units) arg2 button modifier).result
        = .ok () ∧
    (sendEvent utils convertQTKeyCode s "keypress" (.string units) arg2 button modifier).page
        = s ∧
    injected
        (sendEvent utils convertQTKeyCode s "keypress" (.string units) arg2 button modifier).effects
      = units.flatMap (downPressUp convertQTKeyCode (translateModifier utils modifier)) ∧
    (injected
        (sendEvent utils convertQTKeyCode s "keypress" (.string units) arg2 button
          modifier).effects).length
      = 3 * units.length := by
  have hlow : toLowerCase "keypress" = "keypress" := by decide
  match units, hlen with
  | c :: d :: rest, _ =>
    have hinj : injected (Effect.focus b
          :: keypressLoop convertQTKeyCode (translateModifier utils modifier) (c :: d :: rest))
        = keypressLoop convertQTKeyCode (translateModifier utils modifier) (c :: d :: rest) := by
      have h := injected_keypressLoop convertQTKeyCode (translateModifier utils modifier)
        (c :: d :: rest)
      simp only [injected] at h ⊢
      rw [List.filter_cons_of_neg (by simp [Effect.isInjected])]
      exact h
    simp only [sendEvent, hb, hlow]
    refine ⟨by simp, by simp, ?_, ?_⟩
    · simp only [show ¬ ("keypress" = "keydown" ∨ "keypress" = "keyup") by decide, if_false,
        if_true]
      rw [hinj, keypressLoop_eq_flatMap]
    · simp only [show ¬ ("keypress" = "keydown" ∨ "keypress" = "keyup") by decide, if_false,
        if_true]
      rw [hinj, length_keypressLoop]

/-- Witness of C1: `sendEvent("keypress", "ab")` on an open session. -/
theorem sendEvent_keypress_string_witness :
    (openedPage.browser = some 7 ∧ 2 ≤ [97, 98].length) ∧
    injected
        (sendEvent sampleUtils sampleTable openedPage "keypress" (.string [97, 98]) .undefined
          none 0).effects
      = [ .sendKeyEvent "keydown" 97 97 0, .sendKeyEvent "keypress" 97 97 0,
          .sendKeyEvent "keyup" 97 97 0, .sendKeyEvent "keydown" 98 98 0,
          .sendKeyEvent "keypress" 98 98 0, .sendKeyEvent "keyup" 98 98 0 ] :=
  ⟨⟨rfl, by decide⟩,
    (sendEvent_keypress_string sampleUtils sampleTable openedPage 7 [97, 98] .undefined none 0
      rfl (by decide)).2.2.1⟩

/-- The test that `sendEvent` makes of one bit of the modifier reads that bit. -/
theorem bitTest_two_pow (m k : Nat) (hk : k < 32) : bitTest m (2 ^ k) = m.testBit k := by
  have hlt : 2 ^ k < 2 ^ 32 := Nat.pow_lt_pow_right (by decide) hk
  have hbit : ∀ i, ((m % 2 ^ 32) &&& (2 ^ k % 2 ^ 32)).testBit i
      = (decide (i < 32) && m.testBit i && decide (k = i)) := by
    intro i
    rw [Nat.mod_eq_of_lt hlt, Nat.testBit_and, Nat.testBit_mod_two_pow, Nat.testBit_two_pow]
  cases hm : m.testBit k with
  | true =>
    have h1 : ((m % 2 ^ 32) &&& (2 ^ k % 2 ^ 32)).testBit k = true := by
      rw [hbit k, hm]; simp [hk]
    have hne : (m % 2 ^ 32) &&& (2 ^ k % 2 ^ 32) ≠ 0 := by
      intro h0
      rw [h0, Nat.zero_testBit] at h1
      cases h1
    show (((m % 2 ^ 32) &&& (2 ^ k % 2 ^ 32)) != 0) = true
    exact bne_iff_ne.mpr hne
  | false =>
    have h0 : (m % 2 ^ 32) &&& (2 ^ k % 2 ^ 32) = 0 := by
      apply Nat.eq_of_testBit_eq
      intro i
      rw [hbit i, Nat.zero_testBit]
      by_cases hki : k = i
      · subst hki; simp [hm]
      · simp [hki]
    show (((m % 2 ^ 32) &&& (2 ^ k % 2 ^ 32)) != 0) = false
    rw [h0]
    rfl

/-- The translation of any modifier value: the flags of its shift, ctrl, alt and meta
bits, which are the bits 25, 26, 27 and 28. -/
theorem translateModifier_testBit (utils : DOMWindowUtils) (modifier : Nat) :
    translateModifier utils modifier
      = platformFlags utils (modifier.testBit 25) (modifier.testBit 26) (modifier.testBit 27)
          (modifier.testBit 28) := by
  have h1 : bitTest modifier event.modifiers.shift = modifier.testBit 25 :=
    bitTest_two_pow modifier 25 (by decide)
  have h2 : bitTest modifier event.modifiers.ctrl = modifier.testBit 26 :=
    bitTest_two_pow modifier 26 (by decide)
  have h3 : bitTest modifier event.modifiers.alt = modifier.testBit 27 :=
    bitTest_two_pow modifier 27 (by decide)
  have h4 : bitTest modifier event.modifiers.meta = modifier.testBit 28 :=
    bitTest_two_pow modifier 28 (by decide)
  by_cases hz : modifier = 0
  · subst hz
    simp [translateModifier, platformFlags]
  · simp only [translateModifier, h1, h2, h3, h4, platformFlags]
    cases modifier.testBit 25 <;> cases modifier.testBit 26 <;> cases modifier.testBit 27 <;>
      cases modifier.testBit 28 <;> simp [hz]

/-- C2: with a session open, for all coordinates, every button and every modifier
value, `sendEvent("doubleclick", x, y, button, modifier)` succeeds, leaves the page state
as it was, and injects exactly four primitive mouse events, in this order: mousedown
and mouseup with click count 1, then mousedown and mouseup with click count 2, all
four at `(x, y)`, all four with the number of the given button (1 for `'middle'`, 2 for
`'right'`, 0 for any other) and all four with the platform flags of the shift, ctrl, alt
and meta bits of the given modifier. -/
theorem sendEvent_doubleclick (utils : DOMWindowUtils) (convertQTKeyCode : Int → DOMKeyCode)
    (s : WebPage) (b : Browser) (x y : Int) (button : Option String) (modifier : Nat)
    (hb : s.browser = some b) :
    (sendEvent utils convertQTKeyCode s "doubleclick" (.number x) (.number y) button
        modifier).result = .ok () ∧
    (sendEvent utils convertQTKeyCode s "doubleclick" (.number x) (.number y) button
        modifier).page = s ∧
    injected
        (sendEvent utils convertQTKeyCode s "doubleclick" (.number x) (.number y) button
          modifier).effects
      = [ .sendMouseEvent "mousedown" (.number x) (.number y)
            (if button = some "middle" then 1 else if button = some "right" then 2 else 0) 1
            (platformFlags utils (modifier.testBit 25) (modifier.testBit 26)
              (modifier.testBit 27) (modifier.testBit 28)),
          .sendMouseEvent "mouseup" (.number x) (.number y)
            (if button = some "middle" then 1 else if button = some "right" then 2 else 0) 1
            (platformFlags utils (modifier.testBit 25) (modifier.testBit 26)
              (modifier.testBit 27) (modifier.testBit 28)),
          .sendMouseEvent "mousedown" (.number x) (.number y)
            (if button = some "middle" then 1 else if button = some "right" then 2 else 0) 2
            (platformFlags utils (modifier.testBit 25) (modifier.testBit 26)
              (modifier.testBit 27) (modifier.testBit 28)),
          .sendMouseEvent "mouseup" (.number x) (.number y)
            (if button = some "middle" then 1 else if button = some "right" then 2 else 0) 2
            (platformFlags utils (modifier.testBit 25) (modifier.testBit 26)
              (modifier.testBit 27) (modifier.testBit 28)) ] := by
  have hlow : toLowerCase "doubleclick" = "doubleclick" := by decide
  have hmod := translateModifier_testBit utils modifier
  have hbtn : buttonNumber button
      = if button = some "middle" then 1 else if button = some "right" then 2 else 0 := rfl
  simp only [sendEvent, hb, hlow, hmod, hbtn]
  simp [injected, Effect.isInjected, Arg.orZero]

/-- Witness of C2: `sendEvent("doubleclick", 10, 20, "right", shift | ctrl)` on an open
session: button 2 and the shift and control flags, 4 and 2, on all four events. -/
theorem sendEvent_doubleclick_witness :
    openedPage.browser = some 7 ∧
    injected
        (sendEvent sampleUtils sampleTable openedPage "doubleclick" (.number 10) (.number 20)
          (some "right") 0x06000000).effects
      = [ .sendMouseEvent "mousedown" (.number 10) (.number 20) 2 1 6,
          .sendMouseEvent "mouseup" (.number 10) (.number 20) 2 1 6,
          .sendMouseEvent "mousedown" (.number 10) (.number 20) 2 2 6,
          .sendMouseEvent "mouseup" (.number 10) (.number 20) 2 2 6 ] :=
  ⟨rfl,
    (sendEvent_doubleclick sampleUtils sampleTable openedPage 7 10 20 (some "right") 0x06000000
      rfl).2.2⟩

/-- C3, as stated, fails: `sendEvent("mousedoubleclick", 10, 20, "left")` on an open
session injects one primitive event, a mousedown with click count 2, not two. -/
theorem sendEvent_mousedoubleclick_not_two :
    injected
        (sendEvent sampleUtils sampleTable openedPage "mousedoubleclick" (.number 10)
          (.number 20) (some "left") 0).effects
      = [ .sendMouseEvent "mousedown" (.number 10) (.number 20) 0 2 0 ] ∧
    (injected
        (sendEvent sampleUtils sampleTable openedPage "mousedoubleclick" (.number 10)
          (.number 20) (some "left") 0).effects).length ≠ 2 := by
  decide

/-- C3, amended: with a session open, `sendEvent("mousedoubleclick", x, y, button,
modifier)` succeeds, leaves the page state as it was, and injects exactly one
primitive event: a mousedown at `(x, y)` with click count 2, and no mouseup. -/
theorem sendEvent_mousedoubleclick (utils : DOMWindowUtils)
    (convertQTKeyCode : Int → DOMKeyCode) (s : WebPage) (b : Browser) (x y : Int)
    (button : Option String) (modifier : Nat) (hb : s.browser = some b) :
    (sendEvent utils convertQTKeyCode s "mousedoubleclick" (.number x) (.number y) button
        modifier).result = .ok () ∧
    (sendEvent utils convertQTKeyCode s "mousedoubleclick" (.number x) (.number y) button
        modifier).page = s ∧
    injected
        (sendEvent utils convertQTKeyCode s "mousedoubleclick" (.number x) (.number y) button
          modifier).effects
      = [ .sendMouseEvent "mousedown" (.number x) (.number y) (buttonNumber button) 2
            (translateModifier utils modifier) ] := by
  have hlow : toLowerCase "mousedoubleclick" = "mousedoubleclick" := by decide
  simp [sendEvent, hb, hlow, injected, Effect.isInjected, Arg.orZero]

/-- Witness of the amended C3 at `(10, 20)` with the left button. -/
theorem sendEvent_mousedoubleclick_witness :
    openedPage.browser = some 7 ∧
    injected
        (sendEvent sampleUtils sampleTable openedPage "mousedoubleclick" (.number 10)
          (.number 20) (some "left") 0).effects
      = [ .sendMouseEvent "mousedown" (.number 10) (.number 20) 0 2 0 ] :=
  ⟨rfl,
    (sendEvent_mousedoubleclick sampleUtils sampleTable openedPage 7 10 20 (some "left") 0
      rfl).2.2⟩

/-! ## `close` -/

/-- C4, evaluated on the code: a page with an `onClosing` handler is opened on
browser 7 and closed; the variable `browser` still holds the browser, and a second
`close()` runs the whole teardown again, `onClosing` included. -/
theorem close_second_call_repeats_teardown :
    (run { create with onClosing := true }
        [.open_ "http://a/" none, .browserOpened samplePending 7, .close]).1.browser = some 7 ∧
    (close (run { create with onClosing := true }
        [.open_ "http://a/" none, .browserOpened samplePending 7, .close]).1).2
      = [ .removeObserver, .unregisterBrowser 7, .onClosing, .setBrowserWebpageNull 7,
          .closeBrowser 7 ] := by
  decide

/-! ## Lemmas on the sandbox -/

theorem contexts_append (es fs : List Effect) :
    contexts (es ++ fs) = contexts es ++ contexts fs := by
  induction es with
  | nil => rfl
  | cons e es ih => cases e <;> simp [contexts, ih]

theorem runRequests_append (s : WebPage) (rs ts : List Request) :
    runRequests s (rs ++ ts)
      = ((runRequests (runRequests s rs).1 ts).1,
          (runRequests s rs).2 ++ (runRequests (runRequests s rs).1 ts).2) := by
  induction rs generalizing s with
  | nil => simp [runRequests]
  | cons r rs ih => simp [runRequests, ih, List.append_assoc]

theorem evalInSandbox_held (s : WebPage) (src : String) (k : Sandbox)
    (h : s.webPageSandbox = some k) :
    evalInSandbox s src = ⟨s, [.evalInSandbox src k], .ok ()⟩ := by
  simp [evalInSandbox, h]

theorem evalInSandbox_fresh (s : WebPage) (src : String) (b : Browser)
    (h : s.webPageSandbox = none) (hb : s.browser = some b) :
    evalInSandbox s src
      = ⟨{ s with sandboxes := s.sandboxes + 1, webPageSandbox := some s.sandboxes },
          [.evalInSandbox src s.sandboxes], .ok ()⟩ := by
  simp [evalInSandbox, createSandBox, h, hb]

theorem evalInSandbox_closed (s : WebPage) (src : String)
    (h : s.webPageSandbox = none) (hb : s.browser = none) :
    evalInSandbox s src = ⟨s, [], .error .typeError⟩ := by
  simp [evalInSandbox, createSandBox, h, hb]

/-- What one call of `evalInSandbox` does: it throws without effect, or evaluates in
the held sandbox, or evaluates in a sandbox made for it. -/
theorem evalInSandbox_cases (s : WebPage) (src : String) :
    ((evalInSandbox s src).page = s ∧ (evalInSandbox s src).effects = []) ∨
    (∃ k, s.webPageSandbox = some k ∧ (evalInSandbox s src).page = s ∧
      (evalInSandbox s src).effects = [.evalInSandbox src k]) ∨
    (s.webPageSandbox = none ∧
      (evalInSandbox s src).page
        = { s with sandboxes := s.sandboxes + 1, webPageSandbox := some s.sandboxes } ∧
      (evalInSandbox s src).effects = [.evalInSandbox src s.sandboxes]) := by
  obtain hs | ⟨k, hs⟩ := Option.eq_none_or_eq_some s.webPageSandbox
  · obtain hb | ⟨b, hb⟩ := Option.eq_none_or_eq_some s.browser
    · left; rw [evalInSandbox_closed s src hs hb]; exact ⟨rfl, rfl⟩
    · right; right; rw [evalInSandbox_fresh s src b hs hb]; exact ⟨hs, rfl, rfl⟩
  · right; left; rw [evalInSandbox_held s src k hs]; exact ⟨k, hs, rfl, rfl⟩

/-- What one request does to the sandbox: nothing, an evaluation in the held sandbox,
an evaluation in a sandbox made for it, or the held sandbox discarded. -/
theorem request_cases (s : WebPage) (r : Request) :
    r.apply s = (s, []) ∨
    (∃ src k, s.webPageSandbox = some k ∧ r.apply s = (s, [.evalInSandbox src k])) ∨
    (∃ src, s.webPageSandbox = none ∧
      r.apply s = ({ s with sandboxes := s.sandboxes + 1, webPageSandbox := some s.sandboxes },
        [.evalInSandbox src s.sandboxes])) ∨
    (∃ es, r.apply s = ({ s with webPageSandbox := none }, es) ∧ contexts es = []) := by
  cases r with
  | evaluate func args =>
    obtain hb | ⟨b, hb⟩ := Option.eq_none_or_eq_some s.browser
    · left; simp [Request.apply, Slimer.evaluate, hb]
    · have h := evalInSandbox_cases s ("(" ++ func ++ ").apply(this, " ++ args ++ ");")
      have he : Slimer.evaluate s func args
          = evalInSandbox s ("(" ++ func ++ ").apply(this, " ++ args ++ ");") := by
        simp [Slimer.evaluate, hb]
      simp only [Request.apply, he]
      rcases h with ⟨h1, h2⟩ | ⟨k, hk, h1, h2⟩ | ⟨hn, h1, h2⟩
      · left; rw [h1, h2]
      · right; left; exact ⟨_, k, hk, by rw [h1, h2]⟩
      · right; right; left; exact ⟨_, hn, by rw [h1, h2]⟩
  | evaluateJavascript src =>
    have h := evalInSandbox_cases s src
    simp only [Request.apply, Slimer.evaluateJavascript]
    rcases h with ⟨h1, h2⟩ | ⟨k, hk, h1, h2⟩ | ⟨hn, h1, h2⟩
    · left; rw [h1, h2]
    · right; left; exact ⟨_, k, hk, by rw [h1, h2]⟩
    · right; right; left; exact ⟨_, hn, by rw [h1, h2]⟩
  | event e =>
    right; right; right
    cases e <;>
      simp only [Request.apply, PageEvent.apply, initialized, loadStarted, loadFinished,
        urlChanged] <;>
      refine ⟨_, rfl, ?_⟩ <;> split <;> rfl

/-- A request keeps every sandbox at or above a bound that holds before it. -/
theorem request_lower (n : Nat) (s : WebPage) (r : Request) (hn : n ≤ s.sandboxes)
    (hh : ∀ k, s.webPageSandbox = some k → n ≤ k) :
    n ≤ (r.apply s).1.sandboxes ∧ (∀ k, (r.apply s).1.webPageSandbox = some k → n ≤ k) ∧
    ∀ k ∈ contexts (r.apply s).2, n ≤ k := by
  rcases request_cases s r with h | ⟨src, k, hk, h⟩ | ⟨src, _, h⟩ | ⟨es, h, hes⟩
  · rw [h]; exact ⟨hn, hh, by simp [contexts]⟩
  · rw [h]; exact ⟨hn, hh, by simpa [contexts] using hh k hk⟩
  · rw [h]
    refine ⟨Nat.le_succ_of_le hn, ?_, by simpa [contexts] using hn⟩
    intro k hk
    have hk1 : s.sandboxes = k := by simpa using hk
    omega
  · rw [h]; exact ⟨hn, by simp, by simp [hes]⟩

/-- A request only evaluates in sandboxes that have been made. -/
theorem request_upper (s : WebPage) (r : Request) (hk : s.sandboxKnown) :
    s.sandboxes ≤ (r.apply s).1.sandboxes ∧ (r.apply s).1.sandboxKnown ∧
    ∀ k ∈ contexts (r.apply s).2, k < (r.apply s).1.sandboxes := by
  rcases request_cases s r with h | ⟨src, k, hk1, h⟩ | ⟨src, _, h⟩ | ⟨es, h, hes⟩
  · rw [h]; exact ⟨le_refl _, hk, by simp [contexts]⟩
  · rw [h]; exact ⟨le_refl _, hk, by simpa [contexts] using hk k hk1⟩
  · rw [h]
    refine ⟨Nat.le_succ _, ?_, by simp [contexts]⟩
    intro k hk2
    have hk3 : s.sandboxes = k := by simpa using hk2
    show k < s.sandboxes + 1
    rw [hk3]
    exact Nat.lt_succ_self k
  · rw [h]
    refine ⟨le_refl _, ?_, by simp [hes]⟩
    intro k hk2
    simp at hk2

theorem runRequests_lower (n : Nat) (s : WebPage) (rs : List Request) (hn : n ≤ s.sandboxes)
    (hh : ∀ k, s.webPageSandbox = some k → n ≤ k) :
    ∀ k ∈ contexts (runRequests s rs).2, n ≤ k := by
  induction rs generalizing s with
  | nil => simp [runRequests, contexts]
  | cons r rs ih =>
    obtain ⟨h1, h2, h3⟩ := request_lower n s r hn hh
    intro k hk
    simp only [runRequests, contexts_append, List.mem_append] at hk
    rcases hk with hk | hk
    · exact h3 k hk
    · exact ih (r.apply s).1 h1 h2 k hk

theorem runRequests_upper (s : WebPage) (rs : List Request) (hk : s.sandboxKnown) :
    s.sandboxes ≤ (runRequests s rs).1.sandboxes ∧ (runRequests s rs).1.sandboxKnown ∧
    ∀ k ∈ contexts (runRequests s rs).2, k < (runRequests s rs).1.sandboxes := by
  induction rs generalizing s with
  | nil => exact ⟨le_refl _, hk, by simp [runRequests, contexts]⟩
  | cons r rs ih =>
    obtain ⟨h1, h2, h3⟩ := request_upper s r hk
    obtain ⟨i1, i2, i3⟩ := ih (r.apply s).1 h2
    refine ⟨le_trans h1 i1, i2, ?_⟩
    intro k hk1
    simp only [runRequests, contexts_append, List.mem_append] at hk1
    rcases hk1 with hk1 | hk1
    · exact lt_of_lt_of_le (h3 k hk1) i1
    · exact i3 k hk1

/-- With a browser, an evaluation request runs, in the held sandbox when there is
one, and leaves a sandbox held; an event evaluates nothing. -/
theorem request_open (s : WebPage) (r : Request) (b : Browser) (hb : s.browser = some b) :
    (r.apply s).1.browser = some b ∧
    (r.isEvaluation = false → contexts (r.apply s).2 = []) ∧
    (r.isEvaluation = true → ∃ k, (r.apply s).1.webPageSandbox = some k ∧
      contexts (r.apply s).2 = [k] ∧ ∀ j, s.webPageSandbox = some j → j = k) := by
  have key : ∀ src, (evalInSandbox s src).page.browser = some b ∧
      ∃ k, (evalInSandbox s src).page.webPageSandbox = some k ∧
        contexts (evalInSandbox s src).effects = [k] ∧ ∀ j, s.webPageSandbox = some j → j = k := by
    intro src
    obtain hs | ⟨k, hs⟩ := Option.eq_none_or_eq_some s.webPageSandbox
    · rw [evalInSandbox_fresh s src b hs hb]
      exact ⟨hb, s.sandboxes, rfl, rfl, by simp [hs]⟩
    · rw [evalInSandbox_held s src k hs]
      exact ⟨hb, k, hs, rfl, by simp [hs]⟩
  cases r with
  | evaluate func args =>
    have he : Slimer.evaluate s func args
        = evalInSandbox s ("(" ++ func ++ ").apply(this, " ++ args ++ ");") := by
      simp [Slimer.evaluate, hb]
    simp only [Request.apply, he, Request.isEvaluation]
    exact ⟨(key _).1, by simp, fun _ => (key _).2⟩
  | evaluateJavascript src =>
    simp only [Request.apply, Slimer.evaluateJavascript, Request.isEvaluation]
    exact ⟨(key _).1, by simp, fun _ => (key _).2⟩
  | event e =>
    refine ⟨?_, ?_, by simp [Request.isEvaluation]⟩
    · cases e <;> exact hb
    · intro _
      cases e <;>
        simp only [Request.apply, PageEvent.apply, initialized, loadStarted, loadFinished,
          urlChanged] <;>
        split <;> rfl

theorem runRequests_browser (s : WebPage) (rs : List Request) (b : Browser)
    (hb : s.browser = some b) : (runRequests s rs).1.browser = some b := by
  induction rs generalizing s with
  | nil => exact hb
  | cons r rs ih => exact ih (r.apply s).1 (request_open s r b hb).1

/-- With a browser, every evaluation request of a run evaluates once. -/
theorem runRequests_count (s : WebPage) (rs : List Request) (b : Browser)
    (hb : s.browser = some b) :
    (contexts (runRequests s rs).2).length = rs.countP Request.isEvaluation := by
  induction rs generalizing s with
  | nil => rfl
  | cons r rs ih =>
    obtain ⟨h1, h2, h3⟩ := request_open s r b hb
    simp only [runRequests, contexts_append, List.length_append, ih (r.apply s).1 h1]
    cases hr : r.isEvaluation with
    | false => simp [h2 hr, List.countP_cons, hr]
    | true =>
      obtain ⟨k, _, hk, _⟩ := h3 hr
      simp [hk, List.countP_cons, hr]
      omega

/-- With a browser and a held sandbox `k`, evaluation requests all run in `k`. -/
theorem runRequests_held (s : WebPage) (rs : List Request) (b : Browser) (k : Sandbox)
    (hb : s.browser = some b) (hs : s.webPageSandbox = some k)
    (hev : ∀ r ∈ rs, r.isEvaluation = true) :
    contexts (runRequests s rs).2 = List.replicate rs.length k := by
  induction rs generalizing s with
  | nil => rfl
  | cons r rs ih =>
    obtain ⟨h1, _, h3⟩ := request_open s r b hb
    obtain ⟨j, hj, hc, hu⟩ := h3 (hev r (List.mem_cons_self r rs))
    have hjk : k = j := hu k hs
    subst hjk
    simp only [runRequests, contexts_append, hc, List.length_cons, List.replicate_succ]
    rw [ih (r.apply s).1 h1 hj (fun t ht => hev t (List.mem_cons_of_mem r ht))]
    rfl

/-! ## The sandbox: theorem -/

/-- C5: on an open session, for every interleaving of evaluation requests with the
events `initialized`, `loadStarted`, `loadFinished` and `urlChanged`: each event
leaves no sandbox held, whatever handlers are registered, and every evaluation after
the event runs in a sandbox made after it, which is none of the sandboxes used or
held before the event; evaluation requests with no event between them all run in
one sandbox; and every evaluation request runs.  A sandbox is identified by its
rank among the sandboxes made, so `k < sandboxes` says that `k` was made before. -/
theorem sandbox_invalidation (s : WebPage) (b : Browser) (hb : s.browser = some b)
    (hk : s.sandboxKnown) :
    (∀ (pre post : List Request) (e : PageEvent),
      (runRequests s (pre ++ .event e :: post)).2
        = (runRequests s pre).2 ++ (runRequests (runRequests s pre).1 (.event e :: post)).2 ∧
      (e.apply (runRequests s pre).1).1.webPageSandbox = none ∧
      (∀ k ∈ contexts (runRequests s pre).2, k < (runRequests s pre).1.sandboxes) ∧
      (∀ k ∈ contexts (runRequests (runRequests s pre).1 (.event e :: post)).2,
        (runRequests s pre).1.sandboxes ≤ k ∧ k ∉ contexts (runRequests s pre).2 ∧
        (runRequests s pre).1.webPageSandbox ≠ some k)) ∧
    (∀ (pre evals : List Request), (∀ r ∈ evals, r.isEvaluation = true) →
      ∃ k, contexts (runRequests (runRequests s pre).1 evals).2
        = List.replicate evals.length k) ∧
    (∀ rs : List Request,
      (contexts (runRequests s rs).2).length = rs.countP Request.isEvaluation) := by
  refine ⟨?_, ?_, fun rs => runRequests_count s rs b hb⟩
  · intro pre post e
    obtain ⟨_, hk1, hup⟩ := runRequests_upper s pre hk
    have hnone : (e.apply (runRequests s pre).1).1.webPageSandbox = none := by
      cases e <;> rfl
    have hsame : (e.apply (runRequests s pre).1).1.sandboxes = (runRequests s pre).1.sandboxes := by
      cases e <;> rfl
    have hev : contexts ((Request.event e).apply (runRequests s pre).1).2 = [] :=
      (request_open _ (.event e) b (runRequests_browser s pre b hb)).2.1 rfl
    refine ⟨by rw [runRequests_append], hnone, hup, ?_⟩
    intro k hmem
    have hle : (runRequests s pre).1.sandboxes ≤ k := by
      simp only [runRequests, contexts_append, hev, List.nil_append] at hmem
      refine runRequests_lower (runRequests s pre).1.sandboxes
        ((Request.event e).apply (runRequests s pre).1).1 post ?_ ?_ k hmem
      · exact le_of_eq hsame.symm
      · intro j hj
        have hn : ((Request.event e).apply (runRequests s pre).1).1.webPageSandbox = none := hnone
        rw [hn] at hj
        cases hj
    refine ⟨hle, ?_, ?_⟩
    · intro hin
      exact absurd (hup k hin) (not_lt.mpr hle)
    · intro hheld
      exact absurd (hk1 k hheld) (not_lt.mpr hle)
  · intro pre evals hev
    have hb1 := runRequests_browser s pre b hb
    cases evals with
    | nil => exact ⟨0, rfl⟩
    | cons r rs =>
      obtain ⟨h1, _, h3⟩ := request_open (runRequests s pre).1 r b hb1
      obtain ⟨k, hheld, hc, _⟩ := h3 (hev r (List.mem_cons_self r rs))
      refine ⟨k, ?_⟩
      simp only [runRequests, contexts_append, hc, List.length_cons, List.replicate_succ]
      rw [runRequests_held _ rs b k h1 hheld (fun t ht => hev t (List.mem_cons_of_mem r ht))]
      rfl

/-- Witness of C5: an evaluation, `loadStarted`, an evaluation, on an open session:
the second evaluation runs in sandbox 1, which the first did not use. -/
theorem sandbox_invalidation_witness :
    (openedPage.browser = some 7 ∧ openedPage.sandboxKnown) ∧
    contexts (runRequests openedPage
      [.evaluateJavascript "a", .event .loadStarted, .evaluateJavascript "b"]).2 = [0, 1] ∧
    1 ∉ contexts (runRequests openedPage [.evaluateJavascript "a"]).2 :=
  ⟨⟨rfl, fun _ h => nomatch h⟩, by decide,
    (((sandbox_invalidation openedPage 7 rfl (fun _ h => nomatch h)).1
      [.evaluateJavascript "a"] [.evaluateJavascript "b"] .loadStarted).2.2.2 1
        (by decide)).2.1⟩

/-! ## Lemmas on the relay -/

theorem callbacks_append (es fs : List Effect) :
    callbacks (es ++ fs) = callbacks es ++ callbacks fs := by
  induction es with
  | nil => rfl
  | cons e es ih => cases e <;> simp [callbacks, ih]

theorem countInitialized_append (es fs : List Effect) :
    countInitialized (es ++ fs) = countInitialized es + countInitialized fs := by
  induction es with
  | nil => simp [countInitialized]
  | cons e es ih =>
    cases e
    case onInitialized =>
      show countInitialized (es ++ fs) + 1 = countInitialized es + 1 + countInitialized fs
      rw [ih]
      omega
    all_goals simp [countInitialized, ih]

theorem deliverAll_append (o : NetLoggerOptions) (w : WebPage) (ns ms : List Notification) :
    o.deliverAll w (ns ++ ms)
      = (((o.deliverAll w ns).1.deliverAll (o.deliverAll w ns).2.1 ms).1,
          ((o.deliverAll w ns).1.deliverAll (o.deliverAll w ns).2.1 ms).2.1,
          (o.deliverAll w ns).2.2 ++ ((o.deliverAll w ns).1.deliverAll (o.deliverAll w ns).2.1 ms).2.2) := by
  induction ns generalizing o w with
  | nil => simp [NetLoggerOptions.deliverAll]
  | cons n ns ih => simp [NetLoggerOptions.deliverAll, ih, List.append_assoc]

/-- The options that `open` hands out are those built from its arguments. -/
theorem registeredBy_open (s : WebPage) (url : String) (callback : Option Callback)
    (o : NetLoggerOptions) (ho : o ∈ registeredBy (open_ s url callback).2) :
    o = getNetLoggerOptions s url callback := by
  obtain hb | ⟨b, hb⟩ := Option.eq_none_or_eq_some s.browser
  · simpa [open_, hb, registeredBy] using ho
  · simpa [open_, hb, registeredBy] using ho

/-- The methods that relay an event call no `open` callback. -/
theorem callbacks_relay (w : WebPage) :
    callbacks (initialized w).2 = [] ∧ callbacks (loadStarted w).2 = [] ∧
    (∀ status, callbacks (loadFinished w status).2 = []) ∧
    (∀ url, callbacks (urlChanged w url).2 = []) ∧
    (∀ r, callbacks (resourceReceived w r).2 = []) ∧
    (∀ r, callbacks (resourceRequested w r).2 = []) := by
  refine ⟨?_, ?_, fun _ => ?_, fun _ => ?_, fun _ => ?_, fun _ => ?_⟩ <;>
    simp only [initialized, loadStarted, loadFinished, urlChanged, resourceReceived,
      resourceRequested] <;>
    split <;> rfl

/-- A notification calls no `open` callback and leaves the options as they are when
the callback is cleared or the notification is not a load-finished one. -/
theorem deliver_quiet (o : NetLoggerOptions) (w : WebPage) (n : Notification)
    (h : o.callback = none ∨ ∀ status, n ≠ .loadFinished status) :
    (o.deliver w n).1 = o ∧ callbacks (o.deliver w n).2.2 = [] := by
  obtain ⟨h1, h2, h3, h4, h5, h6⟩ := callbacks_relay w
  cases n with
  | request r => exact ⟨rfl, h6 r⟩
  | response r => exact ⟨rfl, h5 r⟩
  | loadStarted => exact ⟨rfl, h2⟩
  | urlChanged url => exact ⟨rfl, h4 url⟩
  | contentLoaded time success =>
    refine ⟨rfl, ?_⟩
    simp only [NetLoggerOptions.deliver, NetLoggerOptions.onContentLoaded]
    split
    · exact h1
    · exact h5 _
  | loadFinished status =>
    rcases h with h | h
    · have hd : o.deliver w (.loadFinished status)
          = (o, (loadFinished w status).1, (loadFinished w status).2) := by
        simp only [NetLoggerOptions.deliver, NetLoggerOptions.onLoadFinished, h]
      rw [hd]
      exact ⟨rfl, h3 status⟩
    · exact absurd rfl (h status)

theorem deliverAll_quiet (o : NetLoggerOptions) (w : WebPage) (ns : List Notification)
    (h : o.callback = none ∨ ∀ n ∈ ns, ∀ status, n ≠ .loadFinished status) :
    (o.deliverAll w ns).1 = o ∧ callbacks (o.deliverAll w ns).2.2 = [] := by
  induction ns generalizing w with
  | nil => exact ⟨rfl, rfl⟩
  | cons n ns ih =>
    have hn : o.callback = none ∨ ∀ status, n ≠ .loadFinished status :=
      h.imp id (fun h => h n (List.mem_cons_self n ns))
    have hns : o.callback = none ∨ ∀ m ∈ ns, ∀ status, m ≠ .loadFinished status :=
      h.imp id (fun h m hm => h m (List.mem_cons_of_mem n hm))
    obtain ⟨d1, d2⟩ := deliver_quiet o w n hn
    simp only [NetLoggerOptions.deliverAll, callbacks_append, d1, d2, List.nil_append]
    exact ih (o.deliver w n).2.1 hns

/-! ## The relay: theorems -/

/-- C6: for the handlers registered by `open(url, callback)`, on a page whose
`onResourceReceived` and `onLoadFinished` handlers are set, a content-loaded
notification with a falsy `success` followed by a load-finished notification gives
exactly one `onResourceReceived` call, with the synthetic event (stage `"end"`, status
none, body `""`, url the one passed to `open`), then exactly one `onLoadFinished` call
with the status notified, then the `open` callback if there is one; a content-loaded
notification with a truthy `success` does what `initialized` does and calls no
`onResourceReceived`. -/
theorem failed_navigation (s : WebPage) (url : String) (callback : Option Callback)
    (o : NetLoggerOptions) (ho : o ∈ registeredBy (open_ s url callback).2)
    (w : WebPage) (hr : w.onResourceReceived = true) (hl : w.onLoadFinished = true)
    (time : Nat) (failure status : JSValue) (hf : failure.truthy = false) :
    (o.deliverAll w [.contentLoaded time failure, .loadFinished status]).2.2
      = [.onResourceReceived (failedResource url time), .onLoadFinished status]
          ++ (match callback with
              | some cb => [.callback cb status]
              | none => []) ∧
    ((failedResource url time).stage = "end" ∧ (failedResource url time).status = none ∧
      (failedResource url time).body = "" ∧ (failedResource url time).url = url) ∧
    (∀ success : JSValue, success.truthy = true →
      (o.onContentLoaded w time success).2 = (initialized w).2 ∧
      ∀ r, Effect.onResourceReceived r ∉ (o.onContentLoaded w time success).2) := by
  have ho := registeredBy_open s url callback o ho
  subst ho
  refine ⟨?_, ⟨rfl, rfl, rfl, rfl⟩, ?_⟩
  · cases callback <;>
      simp [NetLoggerOptions.deliverAll, NetLoggerOptions.deliver,
        NetLoggerOptions.onContentLoaded, NetLoggerOptions.onLoadFinished, hf, resourceReceived,
        loadFinished, hr, hl, getNetLoggerOptions]
  · intro success hs
    have he : (getNetLoggerOptions s url callback).onContentLoaded w time success
        = initialized w := by
      simp [NetLoggerOptions.onContentLoaded, hs]
    rw [he]
    refine ⟨rfl, ?_⟩
    intro r
    simp only [initialized]
    split <;> simp

/-- Witness of C6: `open("http://a/")` on a new page with both handlers set, then a
failed content-loaded and a failed load-finished notification. -/
theorem failed_navigation_witness :
    (sampleOptions ∈ registeredBy (open_ create "http://a/" none).2 ∧
      ({ create with onResourceReceived := true, onLoadFinished := true }
        : WebPage).onResourceReceived = true ∧
      ({ create with onResourceReceived := true, onLoadFinished := true }
        : WebPage).onLoadFinished = true ∧
      (JSValue.boolean false).truthy = false) ∧
    (sampleOptions.deliverAll { create with onResourceReceived := true, onLoadFinished := true }
        [.contentLoaded 5 (.boolean false), .loadFinished (.string "fail")]).2.2
      = [.onResourceReceived (failedResource "http://a/" 5), .onLoadFinished (.string "fail")] :=
  ⟨⟨by decide, rfl, rfl, rfl⟩,
    (failed_navigation create "http://a/" none sampleOptions (by decide)
      { create with onResourceReceived := true, onLoadFinished := true } rfl rfl 5
      (.boolean false) (.string "fail") rfl).1⟩

/-- With a handler and a callback that return, `onLoadFinishedWith` is `onLoadFinished`. -/
theorem onLoadFinished_eq_returning (o : NetLoggerOptions) (w : WebPage) (success : JSValue) :
    o.onLoadFinished w success
      = ((o.onLoadFinishedWith .returning w success).1,
          (o.onLoadFinishedWith .returning w success).2.page,
          (o.onLoadFinishedWith .returning w success).2.effects) ∧
    (o.onLoadFinishedWith .returning w success).2.result = .ok () := by
  cases hc : o.callback <;> cases hl : w.onLoadFinished <;>
    simp [NetLoggerOptions.onLoadFinished, NetLoggerOptions.onLoadFinishedWith, loadFinishedWith,
      Answers.returning, hc, hl]

theorem deliverAllWith_append (o : NetLoggerOptions) (w : WebPage)
    (ns ms : List (Notification × Answers)) :
    o.deliverAllWith w (ns ++ ms)
      = (((o.deliverAllWith w ns).1.deliverAllWith (o.deliverAllWith w ns).2.1 ms).1,
          ((o.deliverAllWith w ns).1.deliverAllWith (o.deliverAllWith w ns).2.1 ms).2.1,
          (o.deliverAllWith w ns).2.2
            ++ ((o.deliverAllWith w ns).1.deliverAllWith (o.deliverAllWith w ns).2.1 ms).2.2) := by
  induction ns generalizing o w with
  | nil => simp [NetLoggerOptions.deliverAllWith]
  | cons n ns ih => simp [NetLoggerOptions.deliverAllWith, ih, List.append_assoc]

/-- A notification other than load-finished keeps the `onLoadFinished` slot. -/
theorem deliver_keeps_slot (o : NetLoggerOptions) (w : WebPage) (n : Notification)
    (h : ∀ status, n ≠ .loadFinished status) :
    (o.deliver w n).2.1.onLoadFinished = w.onLoadFinished := by
  cases n with
  | contentLoaded time success =>
    simp only [NetLoggerOptions.deliver, NetLoggerOptions.onContentLoaded]
    split <;> rfl
  | loadFinished status => exact absurd rfl (h status)
  | _ => rfl

/-- With the answers of the script, a notification calls no `open` callback and leaves
the options as they are when the callback is cleared or the notification is not a
load-finished one. -/
theorem deliverWith_quiet (o : NetLoggerOptions) (w : WebPage) (n : Notification) (a : Answers)
    (h : o.callback = none ∨ ∀ status, n ≠ .loadFinished status) :
    (o.deliverWith w n a).1 = o ∧ callbacks (o.deliverWith w n a).2.2 = [] := by
  cases n with
  | loadFinished status =>
    rcases h with h | h
    · have h3 := (callbacks_relay w).2.2.1 status
      simp only [NetLoggerOptions.deliverWith, NetLoggerOptions.onLoadFinishedWith,
        loadFinishedWith, h]
      split <;> exact ⟨rfl, h3⟩
    · exact absurd rfl (h status)
  | request r => exact deliver_quiet o w _ h
  | response r => exact deliver_quiet o w _ h
  | loadStarted => exact deliver_quiet o w _ h
  | urlChanged url => exact deliver_quiet o w _ h
  | contentLoaded time success => exact deliver_quiet o w _ h

theorem deliverAllWith_quiet (o : NetLoggerOptions) (w : WebPage)
    (ns : List (Notification × Answers))
    (h : o.callback = none ∨ ∀ n ∈ ns, ∀ status, n.1 ≠ Notification.loadFinished status) :
    (o.deliverAllWith w ns).1 = o ∧ callbacks (o.deliverAllWith w ns).2.2 = [] := by
  induction ns generalizing w with
  | nil => exact ⟨rfl, rfl⟩
  | cons n ns ih =>
    have hn : o.callback = none ∨ ∀ status, n.1 ≠ Notification.loadFinished status :=
      h.imp id (fun h => h n (List.mem_cons_self n ns))
    have hns : o.callback = none ∨ ∀ m ∈ ns, ∀ status, m.1 ≠ Notification.loadFinished status :=
      h.imp id (fun h m hm => h m (List.mem_cons_of_mem n hm))
    obtain ⟨d1, d2⟩ := deliverWith_quiet o w n.1 n.2 hn
    simp only [NetLoggerOptions.deliverAllWith, callbacks_append, d1, d2, List.nil_append]
    exact ih (o.deliverWith w n.1 n.2).2.1 hns

/-- Notifications other than load-finished keep the `onLoadFinished` slot. -/
theorem deliverAllWith_keeps_slot (o : NetLoggerOptions) (w : WebPage)
    (ns : List (Notification × Answers))
    (h : ∀ n ∈ ns, ∀ status, n.1 ≠ Notification.loadFinished status) :
    (o.deliverAllWith w ns).2.1.onLoadFinished = w.onLoadFinished := by
  induction ns generalizing o w with
  | nil => rfl
  | cons n ns ih =>
    have hn := h n (List.mem_cons_self n ns)
    have hd : o.deliverWith w n.1 n.2 = o.deliver w n.1 := by
      obtain ⟨n1, a⟩ := n
      cases n1 with
      | loadFinished status => exact absurd rfl (hn status)
      | _ => rfl
    simp only [NetLoggerOptions.deliverAllWith]
    rw [ih _ _ (fun m hm => h m (List.mem_cons_of_mem n hm)), hd]
    exact deliver_keeps_slot o w n.1 hn

/-- C7, as stated, fails: `open("http://a/", cb)` with callback 3, then two load-finished
notifications, the callback throwing at the first: the statement `callback = null` is
not reached, and the callback is called again at the second notification. -/
theorem open_callback_called_again_after_throw :
    getNetLoggerOptions create "http://a/" (some 3)
      ∈ registeredBy (open_ create "http://a/" (some 3)).2 ∧
    ((getNetLoggerOptions create "http://a/" (some 3)).deliverAllWith create
        [ (.loadFinished (.string "success"), ⟨.ok (), .error (.thrown "oops")⟩),
          (.loadFinished (.string "fail"), .returning) ]).2.2
      = [.callback 3 (.string "success"), .callback 3 (.string "fail")] := by
  decide

/-- C7, amended: for the handlers registered by `open(url, cb)` with a callback `cb`, and
every sequence of notifications delivered to them in which `loadFinished status` is the
first load-finished one: if at that notification the `onLoadFinished` handler and the
callback return, the callback is called exactly once in the whole sequence, with
`status`; the call comes right after the call of the `onLoadFinished` handler, when one is
set, in that first notification; and no notification before or after calls it,
whatever the script's functions do later.  A handler that throws leaves the notification
before the callback is called, and a callback that throws is kept for the next
load-finished notification. -/
theorem open_callback_once (s : WebPage) (url : String) (cb : Callback)
    (o : NetLoggerOptions) (ho : o ∈ registeredBy (open_ s url (some cb)).2)
    (w : WebPage) (pre post : List (Notification × Answers)) (status : JSValue) (a : Answers)
    (hpre : ∀ n ∈ pre, ∀ st, n.1 ≠ Notification.loadFinished st)
    (ha : a.handler = .ok () ∧ a.callback = .ok ()) :
    callbacks (o.deliverAllWith w (pre ++ (.loadFinished status, a) :: post)).2.2
      = [.callback cb status] ∧
    (o.deliverAllWith w (pre ++ (.loadFinished status, a) :: post)).2.2
      = (o.deliverAllWith w pre).2.2
        ++ ((if w.onLoadFinished then [Effect.onLoadFinished status] else [])
              ++ [.callback cb status])
        ++ (({ o with callback := none } : NetLoggerOptions).deliverAllWith
              { (o.deliverAllWith w pre).2.1 with webPageSandbox := none } post).2.2 ∧
    callbacks (o.deliverAllWith w pre).2.2 = [] ∧
    callbacks (({ o with callback := none } : NetLoggerOptions).deliverAllWith
      { (o.deliverAllWith w pre).2.1 with webPageSandbox := none } post).2.2 = [] ∧
    (∀ (w1 : WebPage) (st : JSValue) (b : Answers) (e : JSError),
      w1.onLoadFinished = true → b.handler = .error e →
      o.onLoadFinishedWith b w1 st
        = (o, ⟨{ w1 with webPageSandbox := none }, [.onLoadFinished st], .error e⟩)) ∧
    (∀ (w1 : WebPage) (st : JSValue) (b : Answers) (e : JSError),
      (w1.onLoadFinished = false ∨ b.handler = .ok ()) → b.callback = .error e →
      o.onLoadFinishedWith b w1 st
        = (o, ⟨{ w1 with webPageSandbox := none },
            (if w1.onLoadFinished then [Effect.onLoadFinished st] else [])
              ++ [.callback cb st], .error e⟩)) := by
  have hcb : o.callback = some cb := by
    rw [registeredBy_open s url (some cb) o ho]; rfl
  obtain ⟨ha1, ha2⟩ := ha
  obtain ⟨p1, p2⟩ := deliverAllWith_quiet o w pre (Or.inr hpre)
  have pf := deliverAllWith_keeps_slot o w pre hpre
  have q := deliverAllWith_quiet ({ o with callback := none } : NetLoggerOptions)
    { (o.deliverAllWith w pre).2.1 with webPageSandbox := none } post (Or.inl rfl)
  have hfirst : o.onLoadFinishedWith a (o.deliverAllWith w pre).2.1 status
      = ({ o with callback := none },
          ⟨{ (o.deliverAllWith w pre).2.1 with webPageSandbox := none },
            (if w.onLoadFinished then [Effect.onLoadFinished status] else [])
              ++ [.callback cb status], .ok ()⟩) := by
    simp only [NetLoggerOptions.onLoadFinishedWith, loadFinishedWith, loadFinished, ha1, ha2,
      hcb, pf, ite_self]
  have hrun : (o.deliverAllWith w (pre ++ (.loadFinished status, a) :: post)).2.2
      = (o.deliverAllWith w pre).2.2
        ++ ((if w.onLoadFinished then [Effect.onLoadFinished status] else [])
              ++ [.callback cb status])
        ++ (({ o with callback := none } : NetLoggerOptions).deliverAllWith
              { (o.deliverAllWith w pre).2.1 with webPageSandbox := none } post).2.2 := by
    rw [deliverAllWith_append, p1]
    simp only [NetLoggerOptions.deliverAllWith, NetLoggerOptions.deliverWith, hfirst,
      List.append_assoc]
  have hh : callbacks (if w.onLoadFinished then [Effect.onLoadFinished status] else []) = [] := by
    split <;> rfl
  refine ⟨?_, hrun, p2, q.2, ?_, ?_⟩
  · rw [hrun]
    simp only [callbacks_append, p2, hh, q.2, callbacks, List.nil_append, List.append_nil]
  · intro w1 st b e h1 h2
    simp only [NetLoggerOptions.onLoadFinishedWith, loadFinishedWith, loadFinished, h1, h2,
      if_true]
  · intro w1 st b e h1 h2
    rcases h1 with h1 | h1
    · simp only [NetLoggerOptions.onLoadFinishedWith, loadFinishedWith, loadFinished, h1, h2,
        hcb]
      rfl
    · simp only [NetLoggerOptions.onLoadFinishedWith, loadFinishedWith, loadFinished, h1, h2,
        hcb, ite_self]

/-- Witness of the amended C7: on a page with an `onLoadFinished` handler,
`open("http://a/", cb)` with callback 3, then a load-started and two load-finished
notifications, handler and callback returning at the first and throwing at the
second: the handler, then the callback with the first status, then the handler
alone. -/
theorem open_callback_once_witness :
    (getNetLoggerOptions create "http://a/" (some 3)
        ∈ registeredBy (open_ create "http://a/" (some 3)).2 ∧
      (∀ n ∈ [(Notification.loadStarted, Answers.returning)],
        ∀ st, n.1 ≠ Notification.loadFinished st) ∧
      Answers.returning.handler = .ok () ∧ Answers.returning.callback = .ok ()) ∧
    ((getNetLoggerOptions create "http://a/" (some 3)).deliverAllWith
        { create with onLoadFinished := true }
        ([(.loadStarted, .returning)] ++ (.loadFinished (.string "success"), .returning)
          :: [(.loadFinished (.string "fail"),
                ⟨.error (.thrown "oops"), .error (.thrown "oops")⟩)])).2.2
      = [ .onLoadFinished (.string "success"), .callback 3 (.string "success"),
          .onLoadFinished (.string "fail") ] :=
  ⟨⟨by decide, by simp, rfl, rfl⟩,
    (open_callback_once create "http://a/" 3 (getNetLoggerOptions create "http://a/" (some 3))
      (by decide) { create with onLoadFinished := true } [(.loadStarted, .returning)]
      [(.loadFinished (.string "fail"), ⟨.error (.thrown "oops"), .error (.thrown "oops")⟩)]
      (.string "success") .returning (by simp) ⟨rfl, rfl⟩).2.1⟩

/-! ## `onInitialized` -/

/-- One step keeps the `onInitialized` handler and calls it once if the step is one
of those that run `initialized`, and not at all otherwise. -/
theorem step_initialized (s : WebPage) (st : Step) (h : s.onInitialized = true) :
    (step s st).1.onInitialized = true ∧
    countInitialized (step s st).2 = if st.initializes = true then 1 else 0 := by
  cases st with
  | open_ url callback =>
    obtain hb | ⟨b, hb⟩ := Option.eq_none_or_eq_some s.browser <;>
      simp [step, open_, hb, h, countInitialized, Step.initializes]
  | browserOpened p nav =>
    simp [step, openBrowserCallback, initialized, h, countInitialized, Step.initializes]
  | notify o n =>
    cases n with
    | request r =>
      simp only [step, NetLoggerOptions.deliver, NetLoggerOptions.onRequest, resourceRequested,
        Step.initializes]
      refine ⟨h, ?_⟩
      split <;> simp [countInitialized]
    | response r =>
      simp only [step, NetLoggerOptions.deliver, NetLoggerOptions.onResponse, resourceReceived,
        Step.initializes]
      refine ⟨h, ?_⟩
      split <;> simp [countInitialized]
    | loadStarted =>
      simp only [step, NetLoggerOptions.deliver, NetLoggerOptions.onLoadStarted, loadStarted,
        Step.initializes]
      refine ⟨h, ?_⟩
      split <;> simp [countInitialized]
    | urlChanged url =>
      simp only [step, NetLoggerOptions.deliver, NetLoggerOptions.onURLChanged, urlChanged,
        Step.initializes]
      refine ⟨h, ?_⟩
      split <;> simp [countInitialized]
    | contentLoaded time success =>
      cases hs : success.truthy with
      | true =>
        simp [step, NetLoggerOptions.deliver, NetLoggerOptions.onContentLoaded, hs, initialized,
          h, countInitialized, Step.initializes]
      | false =>
        have hd : o.onContentLoaded s time success
            = resourceReceived s (failedResource o.url time) := by
          simp [NetLoggerOptions.onContentLoaded, hs]
        simp only [step, NetLoggerOptions.deliver, hd, resourceReceived, Step.initializes, hs]
        refine ⟨h, ?_⟩
        cases s.onResourceReceived <;> simp [countInitialized]
    | loadFinished success =>
      cases hc : o.callback with
      | none =>
        simp only [step, NetLoggerOptions.deliver, NetLoggerOptions.onLoadFinished, hc,
          loadFinished, Step.initializes]
        refine ⟨h, ?_⟩
        split <;> simp [countInitialized]
      | some cb =>
        simp only [step, NetLoggerOptions.deliver, NetLoggerOptions.onLoadFinished, hc,
          loadFinished, Step.initializes]
        refine ⟨h, ?_⟩
        split <;> simp [countInitialized]
  | evaluateJavascript src =>
    simp only [step, Slimer.evaluateJavascript, Step.initializes]
    rcases evalInSandbox_cases s src with ⟨h1, h2⟩ | ⟨k, _, h1, h2⟩ | ⟨_, h1, h2⟩ <;>
      rw [h1, h2] <;> exact ⟨h, by simp [countInitialized]⟩
  | close =>
    simp only [step, close, Step.initializes]
    refine ⟨h, ?_⟩
    obtain hb | ⟨b, hb⟩ := Option.eq_none_or_eq_some s.browser
    · simp [hb, countInitialized]
    · cases hc : s.onClosing <;> simp [hb, hc, countInitialized]

/-- C8, as stated, fails: on a page with an `onInitialized` handler, `open`, the
launcher handing over browser 7, and one successful content-loaded notification to
the options registered by that `open` call the handler twice. -/
theorem onInitialized_called_twice :
    (open_ { create with onInitialized := true } "http://a/" none).2
      = [.openBrowser samplePending] ∧
    Effect.registerBrowser 7 sampleOptions
      ∈ (openBrowserCallback samplePending { create with onInitialized := true } 7).2 ∧
    (run { create with onInitialized := true }
        [.open_ "http://a/" none, .browserOpened samplePending 7,
          .notify sampleOptions (.contentLoaded 0 (.boolean true))]).2
      = [ .openBrowser samplePending, .setParentWebpage 7, .addObserver,
          .registerBrowser 7 sampleOptions, .onInitialized, .loadURI 7 "http://a/",
          .onInitialized ] ∧
    countInitialized (run { create with onInitialized := true }
        [.open_ "http://a/" none, .browserOpened samplePending 7,
          .notify sampleOptions (.contentLoaded 0 (.boolean true))]).2 ≠ 1 := by
  decide

/-- C8, amended: on a page with an `onInitialized` handler, over every sequence of
`open` calls, browsers handed over by the launcher, tracer notifications,
evaluations and `close` calls, the handler is called once by each step at which the
launcher hands over the browser (after the options are registered and before the
URL is loaded) and once by each content-loaded notification with a truthy `success`,
and by no other step. -/
theorem onInitialized_count (s : WebPage) (steps : List Step) (h : s.onInitialized = true) :
    countInitialized (run s steps).2 = steps.countP Step.initializes ∧
    (∀ (p : PendingBrowser) (nav : Browser),
      (openBrowserCallback p s nav).2
        = [ .setParentWebpage nav, .addObserver, .registerBrowser nav p.options,
            .onInitialized, .loadURI nav p.url ]) := by
  refine ⟨?_, ?_⟩
  · induction steps generalizing s with
    | nil => rfl
    | cons st sts ih =>
      obtain ⟨h1, h2⟩ := step_initialized s st h
      simp only [run, countInitialized_append, h2, ih (step s st).1 h1, List.countP_cons]
      omega
  · intro p nav
    simp [openBrowserCallback, initialized, h]

/-- Witness of the amended C8: one browser handed over and one successful
content-loaded notification give two calls. -/
theorem onInitialized_count_witness :
    ({ create with onInitialized := true } : WebPage).onInitialized = true ∧
    countInitialized (run { create with onInitialized := true }
        [.open_ "http://a/" none, .browserOpened samplePending 7,
          .notify sampleOptions (.contentLoaded 0 (.boolean true)),
          .notify sampleOptions (.contentLoaded 0 (.boolean false))]).2 = 2 :=
  ⟨rfl,
    (onInitialized_count { create with onInitialized := true }
      [.open_ "http://a/" none, .browserOpened samplePending 7,
        .notify sampleOptions (.contentLoaded 0 (.boolean true)),
        .notify sampleOptions (.contentLoaded 0 (.boolean false))] rfl).1⟩

/-! ## Lemmas on `clipRect` -/

theorem check_nonNegative (f : JSField) :
    (f.getTypeOf ∈ ["number"] ∧ okNonNegative f = true) ↔ ∃ t : Int, f = .number (.int t) ∧ 0 ≤ t := by
  cases f with
  | number n => cases n <;> simp [JSField.getTypeOf, okNonNegative]
  | _ => simp [JSField.getTypeOf, okNonNegative]

theorem check_positive (f : JSField) :
    (f.getTypeOf ∈ ["number"] ∧ okPositive f = true) ↔ ∃ t : Int, f = .number (.int t) ∧ 0 < t := by
  cases f with
  | number n => cases n <;> simp [JSField.getTypeOf, okPositive]
  | _ => simp [JSField.getTypeOf, okPositive]

/-- When every requirement passes, `validateOptions` returns the checked properties. -/
theorem validateOptions_ok (options : JSValue) (reqs : List (String × Requirement))
    (h : ∀ kr ∈ reqs, (options.prop kr.1).getTypeOf ∈ kr.2.is ∧ kr.2.ok (options.prop kr.1) = true) :
    validateOptions options reqs = .ok (reqs.map fun kr => (kr.1, options.prop kr.1)) := by
  induction reqs with
  | nil => rfl
  | cons kr reqs ih =>
    obtain ⟨key, req⟩ := kr
    obtain ⟨h1, h2⟩ := h (key, req) (List.mem_cons_self _ _)
    have h3 := ih (fun kr hkr => h kr (List.mem_cons_of_mem _ hkr))
    simp only [validateOptions, List.map_cons]
    rw [if_pos h1, if_pos h2, h3]

/-- When some requirement fails, `validateOptions` throws a requirement error. -/
theorem validateOptions_error (options : JSValue) (reqs : List (String × Requirement))
    (h : ∃ kr ∈ reqs,
      ¬ ((options.prop kr.1).getTypeOf ∈ kr.2.is ∧ kr.2.ok (options.prop kr.1) = true)) :
    ∃ key msg, validateOptions options reqs = .error (.requirement key msg) := by
  induction reqs with
  | nil => obtain ⟨kr, hkr, _⟩ := h; cases hkr
  | cons kr reqs ih =>
    obtain ⟨key, req⟩ := kr
    simp only [validateOptions]
    by_cases h1 : (options.prop key).getTypeOf ∈ req.is
    · by_cases h2 : req.ok (options.prop key) = true
      · rw [if_pos h1, if_pos h2]
        obtain ⟨kr, hkr, hbad⟩ := h
        rcases List.mem_cons.mp hkr with heq | hmem
        · subst heq; exact absurd ⟨h1, h2⟩ hbad
        · obtain ⟨k, m, hkm⟩ := ih ⟨kr, hmem, hbad⟩
          exact ⟨k, m, by rw [hkm]⟩
      · rw [if_pos h1, if_neg h2]; exact ⟨key, req.msg, rfl⟩
    · rw [if_neg h1]; exact ⟨key, req.msg, rfl⟩

/-- The four requirements of the setter pass exactly on the values that meet the
requirements as the specification words them. -/
theorem requirements_pass_iff (value : JSValue) :
    (∀ kr ∈ requirements,
      (value.prop kr.1).getTypeOf ∈ kr.2.is ∧ kr.2.ok (value.prop kr.1) = true)
      ↔ meetsRequirements value := by
  simp only [requirements, List.forall_mem_cons, List.not_mem_nil, false_imp_iff, forall_const,
    and_true, meetsRequirements, check_nonNegative, check_positive, implies_true]

/-- What the setter does with a value that `typeof` calls an object and that meets
the requirements. -/
theorem setClipRect_valid (s : WebPage) (value : JSValue) (ht : value.typeof = "object")
    (hm : meetsRequirements value) :
    setClipRect s value
      = ⟨{ s with privateParameters := { s.privateParameters with
            clipRect := .object [("top", value.prop "top"), ("left", value.prop "left"),
              ("width", value.prop "width"), ("height", value.prop "height")] } }, [], .ok ()⟩ := by
  have h := validateOptions_ok value requirements ((requirements_pass_iff value).mpr hm)
  simp only [setClipRect, ht, if_true, h]
  rfl

/-- What the setter does with a value that `typeof` calls an object and that fails a
requirement. -/
theorem setClipRect_invalid (s : WebPage) (value : JSValue) (ht : value.typeof = "object")
    (hm : ¬ meetsRequirements value) :
    ∃ key msg, setClipRect s value = ⟨s, [], .error (.requirement key msg)⟩ := by
  have hbad : ∃ kr ∈ requirements,
      ¬ ((value.prop kr.1).getTypeOf ∈ kr.2.is ∧ kr.2.ok (value.prop kr.1) = true) := by
    by_contra hall
    push_neg at hall
    exact hm ((requirements_pass_iff value).mp hall)
  obtain ⟨key, msg, h⟩ := validateOptions_error value requirements hbad
  exact ⟨key, msg, by simp only [setClipRect, ht, if_true, h]⟩

/-- What the setter does with a value that `typeof` does not call an object. -/
theorem setClipRect_other (s : WebPage) (value : JSValue) (ht : value.typeof ≠ "object") :
    setClipRect s value
      = ⟨{ s with privateParameters := { s.privateParameters with clipRect := .null } }, [],
          .ok ()⟩ := by
  simp only [setClipRect, ht, if_false]

/-- One assignment keeps the stored clip rectangle valid. -/
theorem setClipRect_keeps_valid (s : WebPage) (value : JSValue)
    (h : validClipRect (clipRect s)) : validClipRect (clipRect (setClipRect s value).page) := by
  by_cases ht : value.typeof = "object"
  · by_cases hm : meetsRequirements value
    · rw [setClipRect_valid s value ht hm]
      obtain ⟨⟨t, ht1, ht2⟩, ⟨l, hl1, hl2⟩, ⟨w, hw1, hw2⟩, ⟨hh, hh1, hh2⟩⟩ := hm
      right
      exact ⟨t, l, w, hh, ht2, hl2, hw2, hh2, by simp only [clipRect, ht1, hl1, hw1, hh1]⟩
    · obtain ⟨key, msg, he⟩ := setClipRect_invalid s value ht hm
      rw [he]; exact h
  · rw [setClipRect_other s value ht]
    left; rfl

theorem goodRect_meets : meetsRequirements goodRect :=
  ⟨⟨0, by decide, by decide⟩, ⟨5, by decide, by decide⟩, ⟨10, by decide, by decide⟩,
    ⟨20, by decide, by decide⟩⟩

theorem negativeTopRect_fails : ¬ meetsRequirements negativeTopRect := by
  intro h
  obtain ⟨⟨t, h1, h2⟩, _⟩ := h
  have h3 : negativeTopRect.prop "top" = .number (.int (-1)) := by decide
  rw [h3] at h1
  injection h1 with h1
  injection h1 with h1
  omega

/-! ## `clipRect`: theorems -/

/-- C9, as stated, fails: `null` is not an object, yet on a page that holds the
rectangle `{top: 0, left: 5, width: 10, height: 20}` the assignment `clipRect = null` throws
the requirement error for `top` and the rectangle stays. -/
theorem clipRect_null_throws :
    (JSValue.null).typeof = "object" ∧
    clipRect (setClipRect create goodRect).page = goodRect ∧
    (setClipRect (setClipRect create goodRect).page .null).result
      = .error (.requirement "top" "top should be a positive integer") ∧
    clipRect (setClipRect (setClipRect create goodRect).page .null).page = goodRect := by
  refine ⟨rfl, by decide, ?_, by decide⟩
  rfl

/-- C9, amended: assigning `clipRect`.  An object that fails a requirement (`top` or
`left` not a number at least 0, `width` or `height` not a number above 0) makes the
assignment throw the requirement error of `validateOptions` and leaves the page as it
was; so does `null`, which `typeof` calls an object and which has none of the four
properties; every other value that is not an object (`undefined`, a boolean, a number,
a string, a function) makes it return and sets `clipRect` to `null`; an object that
meets the four requirements makes it return, and the getter then gives the object of
those four properties. -/
theorem clipRect_assignment (s : WebPage) (value : JSValue) :
    (∀ props, value = .object props → ¬ meetsRequirements value →
      (∃ key msg, (setClipRect s value).result = .error (.requirement key msg)) ∧
      (setClipRect s value).page = s) ∧
    (value = .null →
      (setClipRect s value).result
        = .error (.requirement "top" "top should be a positive integer") ∧
      (setClipRect s value).page = s) ∧
    ((value = .undefined ∨ (∃ b, value = .boolean b) ∨ (∃ n, value = .number n) ∨
        (∃ t, value = .string t) ∨ value = .function) →
      (setClipRect s value).result = .ok () ∧ clipRect (setClipRect s value).page = .null) ∧
    (∀ props, value = .object props → meetsRequirements value →
      (setClipRect s value).result = .ok () ∧
      clipRect (setClipRect s value).page
        = .object [("top", value.prop "top"), ("left", value.prop "left"),
            ("width", value.prop "width"), ("height", value.prop "height")]) := by
  refine ⟨fun props hv hm => ?_, fun hv => ?_, fun hv => ?_, fun props hv hm => ?_⟩
  · have ht : value.typeof = "object" := by subst hv; rfl
    obtain ⟨key, msg, he⟩ := setClipRect_invalid s value ht hm
    rw [he]
    exact ⟨⟨key, msg, rfl⟩, rfl⟩
  · subst hv
    exact ⟨rfl, rfl⟩
  · have ht : value.typeof ≠ "object" := by
      rcases hv with hv | ⟨b, hv⟩ | ⟨n, hv⟩ | ⟨t, hv⟩ | hv <;> subst hv <;>
        simp only [JSValue.typeof] <;> decide
    rw [setClipRect_other s value ht]
    exact ⟨rfl, rfl⟩
  · have ht : value.typeof = "object" := by subst hv; rfl
    rw [setClipRect_valid s value ht hm]
    exact ⟨rfl, rfl⟩

/-- Witness of the amended C9: `{top: -1, left: 0, width: 10, height: 10}` is rejected and
leaves the page as it was, the string `"x"` clears a stored rectangle, and
`{top: 0, left: 5, width: 10, height: 20}` is stored. -/
theorem clipRect_assignment_witness :
    (¬ meetsRequirements negativeTopRect ∧ meetsRequirements goodRect) ∧
    (setClipRect create negativeTopRect).page = create ∧
    clipRect (setClipRect (setClipRect create goodRect).page (.string "x")).page = .null ∧
    clipRect (setClipRect create goodRect).page = goodRect :=
  ⟨⟨negativeTopRect_fails, goodRect_meets⟩,
    ((clipRect_assignment create negativeTopRect).1 _ rfl negativeTopRect_fails).2,
    ((clipRect_assignment (setClipRect create goodRect).page (.string "x")).2.2.1
      (Or.inr (Or.inr (Or.inr (Or.inl ⟨"x", rfl⟩))))).2,
    ((clipRect_assignment create goodRect).2.2.2 _ rfl goodRect_meets).2⟩

/-- C10: from a page whose stored clip rectangle is `null` or a rectangle with
`top >= 0`, `left >= 0`, `width > 0` and `height > 0` (as it is after `create()`), every
sequence of assignments to `clipRect`, throwing or not, leaves a stored clip
rectangle of that kind; and an assignment that throws leaves the page, stored clip
rectangle included, as it was. -/
theorem clipRect_invariant (s : WebPage) (values : List JSValue)
    (h : validClipRect (clipRect s)) :
    validClipRect (clipRect (assignClipRects s values)) ∧
    (∀ (value : JSValue) (e : JSError),
      (setClipRect s value).result = .error e → (setClipRect s value).page = s) := by
  refine ⟨?_, ?_⟩
  · induction values generalizing s with
    | nil => exact h
    | cons value values ih => exact ih (setClipRect s value).page (setClipRect_keeps_valid s value h)
  · intro value e he
    by_cases ht : value.typeof = "object"
    · by_cases hm : meetsRequirements value
      · rw [setClipRect_valid s value ht hm] at he
        cases he
      · obtain ⟨key, msg, hk⟩ := setClipRect_invalid s value ht hm
        rw [hk]
    · rw [setClipRect_other s value ht] at he
      cases he

/-- Witness of C10: on a new page, a stored rectangle survives a rejected assignment,
`null` included, and the run ends with a valid stored rectangle. -/
theorem clipRect_invariant_witness :
    validClipRect (clipRect create) ∧
    validClipRect (clipRect (assignClipRects create [goodRect, negativeTopRect, .null])) ∧
    clipRect (assignClipRects create [goodRect, negativeTopRect, .null]) = goodRect :=
  ⟨Or.inl rfl,
    (clipRect_invariant create [goodRect, negativeTopRect, .null] (Or.inl rfl)).1,
    by decide⟩

/-! ## `viewportSize`: theorems -/

/-- C11, as stated, fails: on an open session, assigning the number 5 to
`viewportSize` is not ignored, it throws the error "Bad argument type". -/
theorem setViewportSize_number_throws :
    (setViewportSize sampleCoerce openedPage (.number (.int 5))).result
      = .error (.error "Bad argument type") := by
  rfl

theorem leZero_iff (n : JSNumber) : n.leZero = true ↔ ∃ i : Int, n = .int i ∧ i ≤ 0 := by
  cases n with
  | nan => simp [JSNumber.leZero]
  | int i => simp [JSNumber.leZero]

/-- The test `(field || 0) <= 0` of the setter holds exactly of the values that
`blocksResize` lists. -/
theorem blocksResize_iff (coerce : JSField → JSNumber) (f : JSField) :
    blocksResize coerce f ↔ (f.orZero.toNumber coerce).leZero = true := by
  cases f with
  | undefined => simp [blocksResize, JSField.orZero, JSField.truthy, JSField.toNumber, JSNumber.leZero]
  | null => simp [blocksResize, JSField.orZero, JSField.truthy, JSField.toNumber, JSNumber.leZero]
  | boolean b =>
    cases b <;>
      simp [blocksResize, JSField.orZero, JSField.truthy, JSField.toNumber, JSNumber.leZero]
  | number n =>
    cases n with
    | nan => simp [blocksResize, JSField.orZero, JSField.truthy, JSField.toNumber, JSNumber.leZero]
    | int i =>
      by_cases h0 : i = 0
      · subst h0
        simp [blocksResize, JSField.orZero, JSField.truthy, JSField.toNumber, JSNumber.leZero]
      · simp [blocksResize, JSField.orZero, JSField.truthy, JSField.toNumber, JSNumber.leZero, h0]
  | string t =>
    by_cases h0 : t = ""
    · subst h0
      simp [blocksResize, JSField.orZero, JSField.truthy, JSField.toNumber, JSNumber.leZero]
    · simp [blocksResize, JSField.orZero, JSField.truthy, JSField.toNumber, h0, leZero_iff]
  | function => simp [blocksResize, JSField.orZero, JSField.truthy, JSField.toNumber, leZero_iff]
  | object => simp [blocksResize, JSField.orZero, JSField.truthy, JSField.toNumber, leZero_iff]

/-- A width or height that does not block the resize is handed to the engine as it
is. -/
theorem orZero_of_not_blocks (coerce : JSField → JSNumber) (f : JSField)
    (h : ¬ blocksResize coerce f) : f.orZero = f := by
  cases f with
  | undefined => exact absurd trivial h
  | null => exact absurd trivial h
  | boolean b =>
    cases b
    · exact absurd rfl h
    · rfl
  | number n =>
    cases n with
    | nan => exact absurd trivial h
    | int i =>
      have h0 : i ≠ 0 := fun h0 => h (by subst h0; exact le_refl (0 : Int))
      simp [JSField.orZero, JSField.truthy, h0]
  | string t =>
    have h0 : t ≠ "" := fun h0 => h (Or.inl h0)
    simp [JSField.orZero, JSField.truthy, h0]
  | function => rfl
  | object => rfl

/-- C11, amended: without a session the setter of `viewportSize` returns and does
nothing, for every value.  With a session open: a value that is not an object and
not `null` makes it throw the error "Bad argument type"; `null` makes it throw the type
error of the read of `null.width`; for an object, the assignment is ignored without
error exactly when its `width` or its `height` blocks the resize (a missing, `null`,
`false`, `NaN`, empty, zero or negative one, or one that the engine converts to a number
that is 0 or negative), and otherwise the viewport is resized with exactly the given
`width` and `height`, as it is for every number above 0, and also for a width such as
`"abc"`, which converts to `NaN`.  Nothing but that resize is done, and the page state
is never changed. -/
theorem setViewportSize_cases (coerce : JSField → JSNumber) (s : WebPage) (val : JSValue) :
    (setViewportSize coerce s val).page = s ∧
    (s.browser = none →
      (setViewportSize coerce s val).result = .ok () ∧
      (setViewportSize coerce s val).effects = []) ∧
    (∀ b, s.browser = some b →
      (val = .undefined ∨ (∃ t, val = .boolean t) ∨ (∃ n, val = .number n) ∨
        (∃ t, val = .string t) ∨ val = .function) →
      (setViewportSize coerce s val).result = .error (.error "Bad argument type") ∧
      (setViewportSize coerce s val).effects = []) ∧
    (∀ b, s.browser = some b → val = .null →
      (setViewportSize coerce s val).result = .error .typeError ∧
      (setViewportSize coerce s val).effects = []) ∧
    (∀ b props, s.browser = some b → val = .object props →
      (blocksResize coerce (val.prop "width") ∨ blocksResize coerce (val.prop "height")) →
      (setViewportSize coerce s val).result = .ok () ∧
      (setViewportSize coerce s val).effects = []) ∧
    (∀ b props, s.browser = some b → val = .object props →
      ¬ blocksResize coerce (val.prop "width") → ¬ blocksResize coerce (val.prop "height") →
      (setViewportSize coerce s val).result = .ok () ∧
      (setViewportSize coerce s val).effects
        = [.setCSSViewport b (val.prop "width") (val.prop "height")]) ∧
    (∀ b props (w h : Int), s.browser = some b → val = .object props →
      val.prop "width" = .number (.int w) → val.prop "height" = .number (.int h) →
      0 < w → 0 < h →
      (setViewportSize coerce s val).result = .ok () ∧
      (setViewportSize coerce s val).effects
        = [.setCSSViewport b (.number (.int w)) (.number (.int h))]) := by
  have hpass : ∀ b props, s.browser = some b → val = .object props →
      ¬ blocksResize coerce (val.prop "width") → ¬ blocksResize coerce (val.prop "height") →
      (setViewportSize coerce s val).result = .ok () ∧
      (setViewportSize coerce s val).effects
        = [.setCSSViewport b (val.prop "width") (val.prop "height")] := by
    intro b props hb hv hw hh
    subst hv
    have w1 := orZero_of_not_blocks coerce _ hw
    have h1 := orZero_of_not_blocks coerce _ hh
    have w2 : (((JSValue.object props).prop "width").orZero.toNumber coerce).leZero = false := by
      cases hc : (((JSValue.object props).prop "width").orZero.toNumber coerce).leZero
      · rfl
      · exact absurd ((blocksResize_iff coerce _).mpr hc) hw
    have h2 : (((JSValue.object props).prop "height").orZero.toNumber coerce).leZero = false := by
      cases hc : (((JSValue.object props).prop "height").orZero.toNumber coerce).leZero
      · rfl
      · exact absurd ((blocksResize_iff coerce _).mpr hc) hh
    rw [w1] at w2
    rw [h1] at h2
    simp only [setViewportSize, hb, JSValue.typeof]
    simp [w2, h2, w1, h1]
  refine ⟨?_, ?_, ?_, ?_, ?_, hpass, ?_⟩
  · unfold setViewportSize
    split
    · rfl
    · split
      · rfl
      · split
        · rfl
        · dsimp only
          split <;> rfl
  · intro hb
    simp [setViewportSize, hb]
  · intro b hb hv
    rcases hv with hv | ⟨t, hv⟩ | ⟨n, hv⟩ | ⟨t, hv⟩ | hv <;> subst hv <;>
      simp [setViewportSize, hb, JSValue.typeof]
  · intro b hb hv
    subst hv
    simp [setViewportSize, hb, JSValue.typeof]
  · intro b props hb hv hm
    subst hv
    have hor : (((JSValue.object props).prop "width").orZero.toNumber coerce).leZero = true
        ∨ (((JSValue.object props).prop "height").orZero.toNumber coerce).leZero = true :=
      hm.imp (blocksResize_iff coerce _).mp (blocksResize_iff coerce _).mp
    simp only [setViewportSize, hb, JSValue.typeof]
    simp [hor]
  · intro b props w h hb hv hw hh hwp hhp
    have r := hpass b props hb hv
      (by rw [hw]; exact not_le.mpr hwp) (by rw [hh]; exact not_le.mpr hhp)
    rw [hw, hh] at r
    exact r

theorem zero_blocks : blocksResize sampleCoerce (.number (.int 0)) :=
  le_refl (0 : Int)

theorem abc_not_blocks : ¬ blocksResize sampleCoerce (.string "abc") := by
  intro h
  rcases h with h | ⟨i, hi, _⟩
  · exact absurd h (by decide)
  · cases hi

theorem positive_not_blocks (i : Int) (hi : 0 < i) :
    ¬ blocksResize sampleCoerce (.number (.int i)) :=
  fun h => absurd h (not_le.mpr hi)

/-- Witness of the amended C11: on an open session `{width: 800, height: 600}` resizes
the viewport to 800 by 600, `{width: 0, height: 600}` is ignored, and
`{width: "abc", height: 600}`, with `"abc"` converted to `NaN`, resizes with `"abc"` and 600. -/
theorem setViewportSize_cases_witness :
    (openedPage.browser = some 7 ∧ (0 : Int) < 800 ∧ (0 : Int) < 600 ∧
      blocksResize sampleCoerce (.number (.int 0)) ∧
      ¬ blocksResize sampleCoerce (.string "abc") ∧
      ¬ blocksResize sampleCoerce (.number (.int 600))) ∧
    (setViewportSize sampleCoerce openedPage
        (.object [("width", .number (.int 800)), ("height", .number (.int 600))])).effects
      = [.setCSSViewport 7 (.number (.int 800)) (.number (.int 600))] ∧
    (setViewportSize sampleCoerce openedPage
        (.object [("width", .number (.int 0)), ("height", .number (.int 600))])).effects = [] ∧
    (setViewportSize sampleCoerce openedPage
        (.object [("width", .string "abc"), ("height", .number (.int 600))])).effects
      = [.setCSSViewport 7 (.string "abc") (.number (.int 600))] :=
  ⟨⟨rfl, by decide, by decide, zero_blocks, abc_not_blocks,
      positive_not_blocks 600 (by decide)⟩,
    ((setViewportSize_cases sampleCoerce openedPage
        (.object [("width", .number (.int 800)), ("height", .number (.int 600))])).2.2.2.2.2.2
      7 _ 800 600 rfl rfl (by decide) (by decide) (by decide) (by decide)).2,
    ((setViewportSize_cases sampleCoerce openedPage
        (.object [("width", .number (.int 0)), ("height", .number (.int 600))])).2.2.2.2.1
      7 _ rfl rfl (Or.inl zero_blocks)).2,
    ((setViewportSize_cases sampleCoerce openedPage
        (.object [("width", .string "abc"), ("height", .number (.int 600))])).2.2.2.2.2.1
      7 _ rfl rfl abc_not_blocks (positive_not_blocks 600 (by decide))).2⟩

/-! ## `renderBase64`: theorems -/

/-- C12, as stated, fails: on an open session `renderBase64("")` does not fail with the
unsupported-format error; the empty format is falsy, so `"png"` is taken and the page
is captured and encoded as `image/png`. -/
theorem renderBase64_empty_format_is_png :
    (renderBase64 sampleDataURL openedPage (some "") .undefined).effects
      = [.getScreenshotCanvas 7 .null .undefined, .toDataURL "image/png" none] ∧
    (renderBase64 sampleDataURL openedPage (some "") .undefined).result
      ≠ .error (.error "Render format \"\" is not supported") := by
  refine ⟨by decide, ?_⟩
  have h : lowerFormat (some "") = "png" := by decide
  simp [renderBase64, openedPage, h]

/-- C12, amended: with `f` the lower-cased text of `format`, or `"png"` when `format` is
absent or the empty string, `renderBase64(format, ratio)` on an open session captures
the page (with the stored clip rectangle and the ratio) and encodes it as
`image/png` when `f = "png"`, as `image/jpeg` at quality 0.8 when `f = "jpeg"`, and for
every other `f` throws the unsupported-format error without capturing anything; with
no session it throws "WebPage not opened" for every format.  The page state is never
changed. -/
theorem renderBase64_formats (toDataURL : String → Option Decimal → String) (s : WebPage)
    (format : Option String) (ratio : JSField) :
    (lowerFormat none = "png" ∧ lowerFormat (some "") = "png" ∧
      ∀ t : String, t ≠ "" → lowerFormat (some t) = toLowerCase t) ∧
    (renderBase64 toDataURL s format ratio).page = s ∧
    (s.browser = none →
      (renderBase64 toDataURL s format ratio).result = .error (.thrown "WebPage not opened") ∧
      (renderBase64 toDataURL s format ratio).effects = []) ∧
    (∀ b, s.browser = some b → lowerFormat format = "png" →
      (renderBase64 toDataURL s format ratio).result
        = .ok ((toDataURL "image/png" none).splitOn ",")[1]? ∧
      (renderBase64 toDataURL s format ratio).effects
        = [.getScreenshotCanvas b (clipRect s) ratio, .toDataURL "image/png" none]) ∧
    (∀ b, s.browser = some b → lowerFormat format = "jpeg" →
      (renderBase64 toDataURL s format ratio).result
        = .ok ((toDataURL "image/jpeg" (some ⟨8, 1⟩)).splitOn ",")[1]? ∧
      (renderBase64 toDataURL s format ratio).effects
        = [.getScreenshotCanvas b (clipRect s) ratio, .toDataURL "image/jpeg" (some ⟨8, 1⟩)]) ∧
    (∀ b, s.browser = some b → lowerFormat format ≠ "png" → lowerFormat format ≠ "jpeg" →
      (renderBase64 toDataURL s format ratio).result
        = .error (.error ("Render format \"" ++ lowerFormat format ++ "\" is not supported")) ∧
      (renderBase64 toDataURL s format ratio).effects = []) := by
  refine ⟨⟨by decide, by decide, ?_⟩, ?_, ?_, ?_, ?_, ?_⟩
  · intro t ht
    simp [lowerFormat, ht]
  · unfold renderBase64
    split
    · rfl
    · dsimp only
      split
      · rfl
      · split <;> rfl
  · intro hb
    simp [renderBase64, hb]
  · intro b hb hf
    simp [renderBase64, hb, hf, clipRect]
  · intro b hb hf
    simp [renderBase64, hb, hf, clipRect]
  · intro b hb h1 h2
    simp [renderBase64, hb, h1, h2]

/-- Witness of the amended C12: on an open session `"JPEG"` is encoded as `image/jpeg`
at quality 0.8 and `"gif"` throws without capturing. -/
theorem renderBase64_formats_witness :
    (openedPage.browser = some 7 ∧ lowerFormat (some "JPEG") = "jpeg" ∧
      lowerFormat (some "gif") ≠ "png" ∧ lowerFormat (some "gif") ≠ "jpeg") ∧
    (renderBase64 sampleDataURL openedPage (some "JPEG") .undefined).effects
      = [.getScreenshotCanvas 7 .null .undefined, .toDataURL "image/jpeg" (some ⟨8, 1⟩)] ∧
    (renderBase64 sampleDataURL openedPage (some "gif") .undefined).effects = [] :=
  ⟨⟨rfl, by decide, by decide, by decide⟩,
    ((renderBase64_formats sampleDataURL openedPage (some "JPEG") .undefined).2.2.2.2.1
      7 rfl (by decide)).2,
    ((renderBase64_formats sampleDataURL openedPage (some "gif") .undefined).2.2.2.2.2
      7 rfl (by decide) (by decide)).2⟩

/-! ## History: theorem -/

/-- C13: on an open session with history index `i` and count `n`, for every integer
`delta`, `go(delta)` returns and leaves the page state as it was; it asks the engine
for index `i + delta`, and for nothing else, exactly when `0 <= i + delta < n`, and
otherwise makes no call at all. -/
theorem go_bounds (s : WebPage) (b : Browser) (h : SessionHistory) (delta : Int)
    (hb : s.browser = some b) :
    (go s h delta).result = .ok () ∧
    (go s h delta).page = s ∧
    (0 ≤ h.index + delta ∧ h.index + delta < h.count →
      (go s h delta).effects = [.gotoIndex b (h.index + delta)]) ∧
    (¬ (0 ≤ h.index + delta ∧ h.index + delta < h.count) → (go s h delta).effects = []) ∧
    ((∃ e, e ∈ (go s h delta).effects) ↔ (0 ≤ h.index + delta ∧ h.index + delta < h.count)) := by
  by_cases hc : h.index + delta ≥ h.count ∨ h.index + delta < 0
  · have hn : ¬ (0 ≤ h.index + delta ∧ h.index + delta < h.count) := by omega
    have hg : go s h delta = ⟨s, [], .ok ()⟩ := by simp only [go, hb, hc, if_true]
    rw [hg]
    exact ⟨rfl, rfl, fun hp => absurd hp hn, fun _ => rfl, by simp [hn]⟩
  · have hp : 0 ≤ h.index + delta ∧ h.index + delta < h.count := by omega
    have hg : go s h delta = ⟨s, [.gotoIndex b (h.index + delta)], .ok ()⟩ := by
      simp only [go, hb, hc, if_false]
    rw [hg]
    exact ⟨rfl, rfl, fun _ => rfl, fun hn => absurd hp hn, by simp [hp]⟩

/-- Witness of C13: with index 1 of 3, `go(1)` asks for index 2 and `go(2)` asks for
nothing. -/
theorem go_bounds_witness :
    openedPage.browser = some 7 ∧
    (go openedPage ⟨1, 3⟩ 1).effects = [.gotoIndex 7 2] ∧
    (go openedPage ⟨1, 3⟩ 2).effects = [] :=
  ⟨rfl, (go_bounds openedPage 7 ⟨1, 3⟩ 1 rfl).2.2.1 (by decide),
    (go_bounds openedPage 7 ⟨1, 3⟩ 2 rfl).2.2.2.1 (by decide)⟩

/-! ## Notifications after `close` -/

/-- C14, as stated, fails: a page with an `onLoadFinished` handler is opened with the
callback 3 and closed; a load-finished notification delivered afterwards to the
options registered by that `open` calls the handler and the callback. -/
theorem notification_after_close_calls_handlers :
    (run { create with onLoadFinished := true }
        [.open_ "http://a/" (some 3),
          .browserOpened ⟨"http://a/", getNetLoggerOptions create "http://a/" (some 3)⟩ 7,
          .close,
          .notify (getNetLoggerOptions create "http://a/" (some 3))
            (.loadFinished (.string "success"))]).2
      = [ .openBrowser ⟨"http://a/", getNetLoggerOptions create "http://a/" (some 3)⟩,
          .setParentWebpage 7, .addObserver,
          .registerBrowser 7 (getNetLoggerOptions create "http://a/" (some 3)),
          .loadURI 7 "http://a/",
          .removeObserver, .unregisterBrowser 7, .setBrowserWebpageNull 7, .closeBrowser 7,
          .onLoadFinished (.string "success"), .callback 3 (.string "success") ] := by
  decide

/-- C14, amended: `close()` asks the tracer to unregister the browser, and a
notification that is delivered to the registered handlers after `close()` all the
same is not ignored: it is relayed exactly as it would have been without `close()`.
A request, response, load-started, url-changed, content-loaded or load-finished
notification calls the matching handler of the script when one is set, and the first
load-finished notification calls the `open` callback too; none of them throws. -/
theorem notification_after_close (s : WebPage) (o : NetLoggerOptions) (n : Notification) :
    (∀ b, s.browser = some b → Effect.unregisterBrowser b ∈ (close s).2) ∧
    (o.deliver (close s).1 n).1 = (o.deliver s n).1 ∧
    (o.deliver (close s).1 n).2.2 = (o.deliver s n).2.2 ∧
    (∀ r, (o.deliver (close s).1 (.request r)).2.2
      = if s.onResourceRequested then [.onResourceRequested r] else []) ∧
    (∀ r, (o.deliver (close s).1 (.response r)).2.2
      = if s.onResourceReceived then [.onResourceReceived r] else []) ∧
    ((o.deliver (close s).1 .loadStarted).2.2
      = if s.onLoadStarted then [.onLoadStarted] else []) ∧
    (∀ url, (o.deliver (close s).1 (.urlChanged url)).2.2
      = if s.onUrlChanged then [.onUrlChanged url] else []) ∧
    (∀ time success, (o.deliver (close s).1 (.contentLoaded time success)).2.2
      = if success.truthy then (if s.onInitialized then [.onInitialized] else [])
        else (if s.onResourceReceived then [.onResourceReceived (failedResource o.url time)]
              else [])) ∧
    (∀ success, (o.deliver (close s).1 (.loadFinished success)).2.2
      = (if s.onLoadFinished then [.onLoadFinished success] else [])
        ++ (match o.callback with
            | some cb => [.callback cb success]
            | none => [])) := by
  refine ⟨?_, ?_, ?_, fun r => rfl, fun r => rfl, rfl, fun url => rfl, ?_, ?_⟩
  · intro b hb
    simp [close, hb]
  · cases n with
    | loadFinished success =>
      simp only [NetLoggerOptions.deliver, NetLoggerOptions.onLoadFinished]
      cases o.callback <;> rfl
    | _ => rfl
  · cases n with
    | contentLoaded time success =>
      simp only [NetLoggerOptions.deliver, NetLoggerOptions.onContentLoaded]
      cases success.truthy <;> rfl
    | loadFinished success =>
      simp only [NetLoggerOptions.deliver, NetLoggerOptions.onLoadFinished]
      cases o.callback <;> rfl
    | _ => rfl
  · intro time success
    simp only [NetLoggerOptions.deliver, NetLoggerOptions.onContentLoaded]
    cases success.truthy <;> rfl
  · intro success
    simp only [NetLoggerOptions.deliver, NetLoggerOptions.onLoadFinished]
    cases o.callback with
    | none => exact (List.append_nil _).symm
    | some cb => rfl

/-! ## Calls without a session -/

/-- C15, evaluated on the code: on a page that was never opened
`evaluateJavascript("1")` throws the engine's type error, raised in `createSandBox` by
the read of `browser.contentWindow`, and not "WebPage not opened" as `evaluate`,
`renderBase64` and `sendEvent` do; the page state is unchanged. -/
theorem evaluateJavascript_unopened :
    (evaluateJavascript create "1").result = .error .typeError ∧
    (evaluateJavascript create "1").page = create ∧
    (evaluate create "function () { return 1; }" "[]").result
      = .error (.thrown "WebPage not opened") ∧
    (renderBase64 sampleDataURL create none .undefined).result
      = .error (.thrown "WebPage not opened") ∧
    (sendEvent sampleUtils sampleTable create "click" (.number 1) (.number 1) none 0).result
      = .error (.error "WebPage not opened") :=
  ⟨rfl, rfl, rfl, rfl, rfl⟩

/-! ## The modifier of `keydown` and `keyup` -/

theorem lor_eq_zero (a b : Nat) (h : a ||| b = 0) : a = 0 ∧ b = 0 := by
  have hbit : ∀ i, (a.testBit i || b.testBit i) = false := by
    intro i
    rw [← Nat.testBit_or, h, Nat.zero_testBit]
  constructor
  · apply Nat.eq_of_testBit_eq
    intro i
    have := hbit i
    rw [Nat.zero_testBit]
    cases ha : a.testBit i
    · rfl
    · rw [ha] at this; simp at this
  · apply Nat.eq_of_testBit_eq
    intro i
    have := hbit i
    rw [Nat.zero_testBit]
    cases hb : b.testBit i
    · rfl
    · rw [hb] at this; simp at this

/-- The tests that `sendEvent` makes on a modifier built of the five bits. -/
theorem bitTest_modifierSet :
    ∀ shift ctrl alt meta keypad : Bool,
      bitTest (modifierSet shift ctrl alt meta keypad) event.modifiers.shift = shift ∧
      bitTest (modifierSet shift ctrl alt meta keypad) event.modifiers.alt = alt ∧
      bitTest (modifierSet shift ctrl alt meta keypad) event.modifiers.ctrl = ctrl ∧
      bitTest (modifierSet shift ctrl alt meta keypad) event.modifiers.meta = meta ∧
      (modifierSet shift ctrl alt meta keypad != 0)
        = (shift || ctrl || alt || meta || keypad) := by
  decide

/-- The translation of a modifier built of the five bits: the flags of the shift, alt,
ctrl and meta bits that are given; the keypad bit gives nothing. -/
theorem translateModifier_modifierSet (utils : DOMWindowUtils)
    (shift ctrl alt meta keypad : Bool) :
    translateModifier utils (modifierSet shift ctrl alt meta keypad)
      = platformFlags utils shift ctrl alt meta := by
  obtain ⟨h1, h2, h3, h4, h5⟩ := bitTest_modifierSet shift ctrl alt meta keypad
  simp only [translateModifier, h1, h2, h3, h4, h5, platformFlags]
  cases shift <;> cases ctrl <;> cases alt <;> cases meta <;> cases keypad <;> simp

/-- With flags that are not 0, the flags of the given bits are 0 only when none of
shift, ctrl, alt and meta is given. -/
theorem platformFlags_eq_zero (utils : DOMWindowUtils) (shift ctrl alt meta : Bool)
    (hu : utils.MODIFIER_SHIFT ≠ 0 ∧ utils.MODIFIER_ALT ≠ 0 ∧ utils.MODIFIER_CONTROL ≠ 0 ∧
      utils.MODIFIER_META ≠ 0) :
    platformFlags utils shift ctrl alt meta = 0
      ↔ (shift = false ∧ ctrl = false ∧ alt = false ∧ meta = false) := by
  obtain ⟨u1, u2, u3, u4⟩ := hu
  constructor
  · intro h
    obtain ⟨h123, h4⟩ := lor_eq_zero _ _ h
    obtain ⟨h12, h3⟩ := lor_eq_zero _ _ h123
    obtain ⟨h1, h2⟩ := lor_eq_zero _ _ h12
    refine ⟨?_, ?_, ?_, ?_⟩
    · cases shift
      · rfl
      · exact absurd h1 u1
    · cases ctrl
      · rfl
      · exact absurd h3 u3
    · cases alt
      · rfl
      · exact absurd h2 u2
    · cases meta
      · rfl
      · exact absurd h4 u4
  · rintro ⟨rfl, rfl, rfl, rfl⟩
    simp [platformFlags]

/-- C16, as stated, fails: with the keypad bit alone as modifier, a set that is not
empty, `sendEvent("keydown", "A")` delivers the inherent modifier of the resolved
code (the shift flag, 4) and not the flags of the given bits, which are 0. -/
theorem keydown_keypad_gets_inherent :
    modifierSet false false false false true ≠ 0 ∧
    platformFlags sampleUtils false false false false = 0 ∧
    (shiftedTable 65).modifier = 4 ∧
    injected
        (sendEvent sampleUtils shiftedTable openedPage "keydown" (.string [65]) .undefined none
          (modifierSet false false false false true)).effects
      = [.sendKeyEvent "keydown" 65 65 4] := by
  decide

/-- C16, amended: with a session open and platform flags that are not 0, for every key
given as a number or as a string of one code unit and every modifier made of the
bits shift, ctrl, alt, meta and keypad, `sendEvent` of `keydown` or `keyup` succeeds and
injects exactly one primitive key event, of that type, with the key code and char
code that the key-code table gives; its modifier is the inherent modifier of the
resolved code when none of shift, ctrl, alt and meta is given (the set is empty or
holds the keypad bit alone), and otherwise the flags of exactly the given shift,
ctrl, alt and meta bits. -/
theorem sendEvent_key_modifier (utils : DOMWindowUtils) (convertQTKeyCode : Int → DOMKeyCode)
    (s : WebPage) (b : Browser) (eventType : String) (key : Arg) (code : Int) (arg2 : Arg)
    (button : Option String) (shift ctrl alt meta keypad : Bool)
    (hb : s.browser = some b)
    (he : eventType = "keydown" ∨ eventType = "keyup")
    (hkey : key = .number code ∨ ∃ c : Nat, key = .string [c] ∧ code = c)
    (hu : utils.MODIFIER_SHIFT ≠ 0 ∧ utils.MODIFIER_ALT ≠ 0 ∧ utils.MODIFIER_CONTROL ≠ 0 ∧
      utils.MODIFIER_META ≠ 0) :
    (sendEvent utils convertQTKeyCode s eventType key arg2 button
        (modifierSet shift ctrl alt meta keypad)).result = .ok () ∧
    injected
        (sendEvent utils convertQTKeyCode s eventType key arg2 button
          (modifierSet shift ctrl alt meta keypad)).effects
      = [.sendKeyEvent eventType (convertQTKeyCode code).keyCode (convertQTKeyCode code).charCode
          (if shift = false ∧ ctrl = false ∧ alt = false ∧ meta = false
            then (convertQTKeyCode code).modifier
            else platformFlags utils shift ctrl alt meta)] := by
  have hlow : toLowerCase eventType = eventType := by
    rcases he with he | he <;> subst he <;> decide
  have htr := translateModifier_modifierSet utils shift ctrl alt meta keypad
  have hz := platformFlags_eq_zero utils shift ctrl alt meta hu
  have hmod : (if (convertQTKeyCode code).modifier != 0
        ∧ platformFlags utils shift ctrl alt meta = 0
      then (convertQTKeyCode code).modifier else platformFlags utils shift ctrl alt meta)
      = (if shift = false ∧ ctrl = false ∧ alt = false ∧ meta = false
          then (convertQTKeyCode code).modifier
          else platformFlags utils shift ctrl alt meta) := by
    by_cases hnone : shift = false ∧ ctrl = false ∧ alt = false ∧ meta = false
    · have h0 := hz.mpr hnone
      rw [if_pos hnone, h0]
      by_cases hm : (convertQTKeyCode code).modifier = 0
      · simp [hm]
      · simp [hm]
    · have h0 : ¬ platformFlags utils shift ctrl alt meta = 0 := fun h => hnone (hz.mp h)
      rw [if_neg hnone, if_neg (fun h => h0 h.2)]
  rcases hkey with hk | ⟨c, hk, hc⟩
  · subst hk
    simp only [sendEvent, hb, hlow, if_pos he, htr, hmod]
    exact ⟨trivial, rfl⟩
  · subst hk
    subst hc
    simp only [sendEvent, hb, hlow, if_pos he, htr, hmod]
    exact ⟨trivial, rfl⟩

/-- Witness of the amended C16: `keyup` of `"A"` with shift and ctrl given delivers the
shift and control flags, 4 and 2. -/
theorem sendEvent_key_modifier_witness :
    (openedPage.browser = some 7 ∧ ("keyup" = "keydown" ∨ "keyup" = "keyup") ∧
      (Arg.string [65] = .number 65 ∨ ∃ c : Nat, Arg.string [65] = .string [c] ∧ (65 : Int) = c) ∧
      (sampleUtils.MODIFIER_SHIFT ≠ 0 ∧ sampleUtils.MODIFIER_ALT ≠ 0 ∧
        sampleUtils.MODIFIER_CONTROL ≠ 0 ∧ sampleUtils.MODIFIER_META ≠ 0)) ∧
    injected
        (sendEvent sampleUtils shiftedTable openedPage "keyup" (.string [65]) .undefined none
          (modifierSet true true false false false)).effects
      = [.sendKeyEvent "keyup" 65 65 6] :=
  ⟨⟨rfl, Or.inr rfl, Or.inr ⟨65, rfl, rfl⟩, by decide⟩,
    (sendEvent_key_modifier sampleUtils shiftedTable openedPage 7 "keyup" (.string [65]) 65
      .undefined none true true false false false rfl (Or.inr rfl) (Or.inr ⟨65, rfl, rfl⟩)
      (by decide)).2⟩

end Slimer
